import Mathlib

/-!
# Prison Management Backend — formal model of the Prisoner Lifecycle & Workflow Engine

A shallow embedding of the service layer of the prison-management backend
(prisoner service, prison service, visit service, work-record service,
behaviour service).  Each service function is translated into a pure Lean
function over an explicit database state; `throw new Error(...)` sites become
`Except.error` with a typed error constructor per message; Sequelize
`findByPk` / `findOne` / `count` become `List.find?` / `List.countP`;
`update` inside a transaction becomes a pure functional update committed only
on the `.ok` path, so an error result models a rolled-back transaction that
wrote nothing.

Modelling conventions:
* ids are `Nat` (auto-increment primary keys, hence `≠ 0` and unique);
* `DATE`/timestamp columns (`new Date()`) are an abstract instant `Int`
  passed in as `now`; the prisoner's `expected_release_date` is a civil
  calendar date because `approveSentenceAdjustment` does calendar day
  arithmetic on it (JS `setDate(getDate() + days)`);
* visit times (`TIME` columns, `"HH:MM"` strings compared by SQL as time
  values) are minutes-since-midnight `Nat`; `visit_date` is a day number;
* JavaScript truthiness of nullable numeric columns is `optNatTruthy`
  (both `null` and `0` are falsy); nullable nonempty-string payload fields
  (validated dates/times, notes) are `Option` values whose truthiness is
  `isSome` for `some s` with `s` nonempty, modelled by `strTruthy`;
* a Sequelize association that was not named in an `include` is absent from
  the loaded row: reading it yields `undefined`, and reading a property of
  it raises a `TypeError`.  This is modelled by an `Option` association
  field on the loaded row and the `Err.typeError` result.
-/

namespace PrisonMS

/-- Prisoner lifecycle status (`PRISONER_STATUS` in `config/constants.js`). -/
inductive PrisonerStatus
  | active | released | transferred | deceased
  deriving DecidableEq

/-- User roles (`USER_ROLES` in `config/constants.js`). -/
inductive Role
  | superAdmin | prisonAdmin | officer | recordsKeeper | visitorManager
  deriving DecidableEq

/-- Sentence-adjustment status of a behaviour record (`ADJUSTMENT_STATUS`). -/
inductive AdjStatus
  | notApplicable | pending | approved | rejected
  deriving DecidableEq

/-- Work-record payment status (`PAYMENT_STATUS`). -/
inductive PayStatus
  | pending | paid
  deriving DecidableEq

/-- Visit status (`VISIT_STATUS`). -/
inductive VisitStatus
  | scheduled | completed | cancelled
  deriving DecidableEq

/-- Typed domain errors: one constructor per distinct `throw new Error(...)`
message in the services.  `typeError` stands for the JavaScript `TypeError`
raised when a property is read off `undefined`. -/
inductive Err
  | roleForbidden
  | prisonIdRequired
  | prisonNotFound
  | targetPrisonNotFound
  | prisonerNotFound
  | visitNotFound
  | visitorNotFound
  | behaviourRecordNotFound
  | workRecordNotFound
  | accessDenied
  | capacityExceeded
  | duplicateNic
  | duplicateCaseNumber
  | duplicatePrisonName
  | capacityNegative
  | capacityBelowOccupancy
  | alreadyReleased
  | prisonerNotActive
  | visitConflict
  | cannotUpdateNonScheduled
  | invalidVisitStatus
  | cannotDeleteCompleted
  | alreadyApproved
  | noPendingAdjustment
  | noAdjustmentDays
  | cannotUpdateApproved
  | cannotDeleteApproved
  | cannotUpdatePaid
  | cannotDeletePaid
  | alreadyPaid
  | typeError
  deriving DecidableEq

/-- JS truthiness of a nullable numeric column: `null` and `0` are falsy. -/
def optNatTruthy : Option Nat → Bool
  | none => false
  | some n => n != 0

/-- JS truthiness of a nullable nonempty-string field: only `null` is falsy
(the string payloads here are format-validated, hence nonempty). -/
def strTruthy : Option α → Bool
  | none => false
  | some _ => true

/-- JS `===` between a nullable number (`userPrisonId`) and a number. -/
def optNatEq : Option Nat → Nat → Bool
  | none, _ => false
  | some a, b => a == b

/-- `checkPrisonAccess(userPrisonId, prisonerPrisonId, userRole)`: Super Admin
sees everything, everyone else only their own prison. -/
def checkPrisonAccess (userPrisonId : Option Nat) (prisonerPrisonId : Nat)
    (userRole : Role) : Bool :=
  if userRole == Role.superAdmin then true
  else optNatEq userPrisonId prisonerPrisonId

/-! ## Civil dates

`approveSentenceAdjustment` shifts the prisoner's `expected_release_date` with
`currentEndDate.setDate(currentEndDate.getDate() + adjustmentDays)`, i.e.
calendar-correct day arithmetic on a proleptic Gregorian date.  We model a
civil date (year ≥ 1 CE) and day addition through a day-count conversion. -/

/-- A civil (proleptic Gregorian) calendar date, year ≥ 1. -/
structure CivilDate where
  year : Nat
  month : Nat
  day : Nat
  deriving DecidableEq

/-- Days since the epoch of the civil calendar algorithm (Gregorian),
for years ≥ 1; standard era/year-of-era decomposition. -/
def CivilDate.toFixed (dt : CivilDate) : Nat :=
  let y := dt.year - (if dt.month ≤ 2 then 1 else 0)
  let era := y / 400
  let yoe := y % 400
  let mp := if dt.month > 2 then dt.month - 3 else dt.month + 9
  let doy := (153 * mp + 2) / 5 + (dt.day - 1)
  let doe := yoe * 365 + yoe / 4 - yoe / 100 + doy
  era * 146097 + doe

/-- Inverse of `CivilDate.toFixed` (Gregorian `civil_from_days`). -/
def CivilDate.fromFixed (z : Nat) : CivilDate :=
  let era := z / 146097
  let doe := z % 146097
  let yoe := (doe - doe / 1460 + doe / 36524 - doe / 146096) / 365
  let y := yoe + era * 400
  let doy := doe - (365 * yoe + yoe / 4 - yoe / 100)
  let mp := (5 * doy + 2) / 153
  let d := doy - (153 * mp + 2) / 5 + 1
  let m := if mp < 10 then mp + 3 else mp - 9
  { year := y + (if m ≤ 2 then 1 else 0), month := m, day := d }

/-- Shift a civil date by a signed number of days (JS
`date.setDate(date.getDate() + delta)`). -/
def CivilDate.addDays (dt : CivilDate) (delta : Int) : CivilDate :=
  CivilDate.fromFixed ((dt.toFixed : Int) + delta).toNat

/-! ## Entity records -/

/-- A `Prison` row (only the columns the modelled services consult). -/
structure Prison where
  prison_id : Nat
  prison_name : String
  capacity : Int
  is_active : Bool
  deriving DecidableEq

/-- A `Prisoner` row. -/
structure Prisoner where
  prisoner_id : Nat
  full_name : String
  nic : String
  case_number : String
  status : PrisonerStatus
  prison_id : Nat
  admission_date : Int
  expected_release_date : Option CivilDate
  actual_release_date : Option Int
  deriving DecidableEq

/-- A `Visitor` row. -/
structure Visitor where
  visitor_id : Nat
  nic : String
  deriving DecidableEq

/-- A `Visit` row. -/
structure Visit where
  visit_id : Nat
  prisoner_id : Nat
  visitor_id : Nat
  visit_date : Nat
  visit_time_start : Nat
  visit_time_end : Nat
  status : VisitStatus
  approved_by : Option Nat
  notes : Option String
  deriving DecidableEq

/-- A `PrisonerWorkRecord` row. -/
structure WorkRecord where
  work_record_id : Nat
  prisoner_id : Nat
  task_description : String
  work_date : Int
  hours_worked : Int
  payment_amount : Int
  payment_status : PayStatus
  payment_date : Option Int
  recorded_by : Nat
  deriving DecidableEq

/-- A `PrisonerBehaviourRecord` row. -/
structure BehaviourRecord where
  behaviour_id : Nat
  prisoner_id : Nat
  sentence_adjustment_days : Int
  adjustment_status : AdjStatus
  adjustment_approved_at : Option Int
  notes : Option String
  recorded_by : Nat
  deriving DecidableEq

/-- The relational store. -/
structure DB where
  prisons : List Prison
  prisoners : List Prisoner
  visitors : List Visitor
  visits : List Visit
  workRecords : List WorkRecord
  behaviourRecords : List BehaviourRecord
  deriving DecidableEq

/-! ## Store primitives -/

/-- `db.Prison.findByPk(prisonId)`. -/
def findPrison (db : DB) (id : Nat) : Option Prison :=
  db.prisons.find? (fun p => p.prison_id == id)

/-- `db.Prisoner.findByPk(prisonerId)`. -/
def findPrisoner (db : DB) (id : Nat) : Option Prisoner :=
  db.prisoners.find? (fun p => p.prisoner_id == id)

/-- `db.Visitor.findByPk(visitorId)`. -/
def findVisitor (db : DB) (id : Nat) : Option Visitor :=
  db.visitors.find? (fun v => v.visitor_id == id)

/-- `db.Visit.findByPk(visitId)`. -/
def findVisit (db : DB) (id : Nat) : Option Visit :=
  db.visits.find? (fun v => v.visit_id == id)

/-- `db.PrisonerWorkRecord.findByPk(workRecordId)`. -/
def findWorkRecord (db : DB) (id : Nat) : Option WorkRecord :=
  db.workRecords.find? (fun w => w.work_record_id == id)

/-- `db.PrisonerBehaviourRecord.findByPk(behaviourRecordId)`. -/
def findBehaviourRecord (db : DB) (id : Nat) : Option BehaviourRecord :=
  db.behaviourRecords.find? (fun b => b.behaviour_id == id)

/-- `db.Prisoner.count({ where: { prison_id, status: 'Active' } })`. -/
def activeCount (db : DB) (prisonId : Nat) : Nat :=
  db.prisoners.countP (fun p => p.prison_id == prisonId && p.status == PrisonerStatus.active)

/-- Row update keyed by a predicate (a Sequelize instance `update` seen from
the table: exactly the matching rows change). -/
def updateWhere (l : List α) (c : α → Bool) (g : α → α) : List α :=
  l.map (fun a => if c a then g a else a)

/-! ## Prisoner service (`prisonerService`) -/

/-- The payload fields of `registerPrisoner` that the service consults or
stores (beyond pass-through text columns). -/
structure RegisterData where
  full_name : String
  nic : String
  case_number : String
  prison_id : Option Nat
  admission_date : Option Int
  expected_release_date : Option CivilDate
  deriving DecidableEq

/-- The prison-id resolution at the top of `registerPrisoner`: a Super Admin
may name a prison in the payload (truthy check), everyone else registers into
their own prison. -/
def resolvePrisonId (dataPrisonId userPrisonId : Option Nat) (userRole : Role) :
    Option Nat :=
  if userRole == Role.superAdmin && optNatTruthy dataPrisonId then dataPrisonId
  else userPrisonId

/-- The duplicate NIC / case-number probe of `registerPrisoner`
(`findOne` over `nic = data.nic OR case_number = data.case_number`). -/
def registerDupErr (db : DB) (data : RegisterData) : Option Err :=
  match db.prisoners.find?
      (fun p => p.nic == data.nic || p.case_number == data.case_number) with
  | none => none
  | some existing =>
    if existing.nic == data.nic then some Err.duplicateNic
    else if existing.case_number == data.case_number then some Err.duplicateCaseNumber
    else none

/-- `registerPrisoner(prisonerData, userPrisonId, userRole, userId)`:
capacity-checked admission creating an Active prisoner.  `now` is the
transaction instant, `newId` the auto-increment key of the created row. -/
def registerPrisoner (db : DB) (data : RegisterData) (userPrisonId : Option Nat)
    (userRole : Role) (now : Int) (newId : Nat) : Except Err DB :=
  match resolvePrisonId data.prison_id userPrisonId userRole with
  | none => Except.error Err.prisonIdRequired
  | some prisonId =>
    if prisonId == 0 then Except.error Err.prisonIdRequired
    else
      match findPrison db prisonId with
      | none => Except.error Err.prisonNotFound
      | some prison =>
        if (activeCount db prisonId : Int) ≥ prison.capacity then
          Except.error Err.capacityExceeded
        else
          match registerDupErr db data with
          | some e => Except.error e
          | none =>
            Except.ok { db with prisoners := db.prisoners ++
              [{ prisoner_id := newId
                 full_name := data.full_name
                 nic := data.nic
                 case_number := data.case_number
                 status := PrisonerStatus.active
                 prison_id := prisonId
                 admission_date := (data.admission_date.getD now)
                 expected_release_date := data.expected_release_date
                 actual_release_date := none }] }

/-- `transferPrisoner(prisonerId, targetPrisonId, ..., userPrisonId, userRole, userId)`:
role gate, source-prison access, target capacity check; the update sets
`prison_id` to the target and `status` to Active, with no precondition on the
prisoner's current status. -/
def transferPrisoner (db : DB) (prisonerId targetPrisonId : Nat)
    (userPrisonId : Option Nat) (userRole : Role) : Except Err DB :=
  if ¬(userRole == Role.prisonAdmin || userRole == Role.superAdmin) then
    Except.error Err.roleForbidden
  else
    match findPrisoner db prisonerId with
    | none => Except.error Err.prisonerNotFound
    | some prisoner =>
      if ¬checkPrisonAccess userPrisonId prisoner.prison_id userRole then
        Except.error Err.accessDenied
      else
        match findPrison db targetPrisonId with
        | none => Except.error Err.targetPrisonNotFound
        | some targetPrison =>
          if (activeCount db targetPrisonId : Int) ≥ targetPrison.capacity then
            Except.error Err.capacityExceeded
          else
            Except.ok { db with
              prisoners := updateWhere db.prisoners
                (fun p => p.prisoner_id == prisonerId)
                (fun p => { p with prison_id := targetPrisonId,
                                   status := PrisonerStatus.active }) }

/-- `releasePrisoner(prisonerId, ..., userPrisonId, userRole, userId)`:
role gate, access check, then rejects only an already-Released prisoner
before setting `status = Released` and `actual_release_date = now`. -/
def releasePrisoner (db : DB) (prisonerId : Nat) (userPrisonId : Option Nat)
    (userRole : Role) (now : Int) : Except Err DB :=
  if ¬(userRole == Role.prisonAdmin || userRole == Role.superAdmin) then
    Except.error Err.roleForbidden
  else
    match findPrisoner db prisonerId with
    | none => Except.error Err.prisonerNotFound
    | some prisoner =>
      if ¬checkPrisonAccess userPrisonId prisoner.prison_id userRole then
        Except.error Err.accessDenied
      else
        if prisoner.status == PrisonerStatus.released then
          Except.error Err.alreadyReleased
        else
          Except.ok { db with
            prisoners := updateWhere db.prisoners
              (fun p => p.prisoner_id == prisonerId)
              (fun p => { p with status := PrisonerStatus.released,
                                 actual_release_date := some now }) }

/-- `deletePrisoner(prisonerId, reason, userPrisonId, userRole, userId)`:
role gate and access check, then — with no precondition on the current
status — sets the status from the reason (`'deceased'` ↦ Deceased, anything
else ↦ Released) and stamps `actual_release_date = now`. -/
def deletePrisoner (db : DB) (prisonerId : Nat) (reason : String)
    (userPrisonId : Option Nat) (userRole : Role) (now : Int) : Except Err DB :=
  if ¬(userRole == Role.prisonAdmin || userRole == Role.superAdmin) then
    Except.error Err.roleForbidden
  else
    match findPrisoner db prisonerId with
    | none => Except.error Err.prisonerNotFound
    | some prisoner =>
      if ¬checkPrisonAccess userPrisonId prisoner.prison_id userRole then
        Except.error Err.accessDenied
      else
        Except.ok { db with
          prisoners := updateWhere db.prisoners
            (fun p => p.prisoner_id == prisonerId)
            (fun p => { p with
              status := if reason == "deceased" then PrisonerStatus.deceased
                        else PrisonerStatus.released,
              actual_release_date := some now }) }

/-! ## Prison service (`prisonService.updatePrison`) -/

/-- The `updatePrison` payload fields the service consults. -/
structure PrisonUpdateData where
  prison_name : Option String
  capacity : Option Int
  deriving DecidableEq

/-- `updatePrison(prisonId, updateData, userRole)`: Super Admin only;
duplicate-name probe; a capacity value is rejected when negative or below the
prison's current Active occupancy. -/
def updatePrison (db : DB) (prisonId : Nat) (updateData : PrisonUpdateData)
    (userRole : Role) : Except Err DB :=
  if ¬(userRole == Role.superAdmin) then Except.error Err.roleForbidden
  else
    match findPrison db prisonId with
    | none => Except.error Err.prisonNotFound
    | some prison =>
      if strTruthy updateData.prison_name
          && updateData.prison_name != some prison.prison_name
          && (db.prisons.find? (fun p =>
                some p.prison_name == updateData.prison_name
                  && p.prison_id != prisonId)).isSome then
        Except.error Err.duplicatePrisonName
      else
        match updateData.capacity with
        | some newCapacity =>
          if newCapacity < 0 then Except.error Err.capacityNegative
          else if newCapacity < (activeCount db prisonId : Int) then
            Except.error Err.capacityBelowOccupancy
          else
            Except.ok { db with
              prisons := updateWhere db.prisons
                (fun p => p.prison_id == prisonId)
                (fun p => { p with
                  prison_name := updateData.prison_name.getD p.prison_name
                  capacity := newCapacity }) }
        | none =>
          Except.ok { db with
            prisons := updateWhere db.prisons
              (fun p => p.prison_id == prisonId)
              (fun p => { p with
                prison_name := updateData.prison_name.getD p.prison_name }) }

/-! ## Visit service (`visitService`) -/

/-- The time-window condition of the conflict `findOne` in `scheduleVisit` /
`updateVisit`: Sequelize `Op.between` is INCLUSIVE on both bounds, so this is
`reqStart ≤ existing.start ≤ reqEnd  OR  reqStart ≤ existing.end ≤ reqEnd
OR (existing.start ≤ reqStart AND existing.end ≥ reqEnd)`. -/
def overlapCond (existStart existEnd reqStart reqEnd : Nat) : Bool :=
  (reqStart ≤ existStart && existStart ≤ reqEnd)
    || (reqStart ≤ existEnd && existEnd ≤ reqEnd)
    || (existStart ≤ reqStart && existEnd ≥ reqEnd)

/-- The conflicting-visit probe shared by `scheduleVisit` (no exclusion) and
`updateVisit` (`visit_id: { [Op.ne]: visitId }`): another Scheduled visit of
the same prisoner on the same date whose window meets `overlapCond`. -/
def findConflictingVisit (visits : List Visit) (excludeVisitId : Option Nat)
    (prisonerId visitDate timeStart timeEnd : Nat) : Option Visit :=
  visits.find? (fun v =>
    (match excludeVisitId with
     | some ex => v.visit_id != ex
     | none => true)
    && v.prisoner_id == prisonerId
    && v.visit_date == visitDate
    && v.status == VisitStatus.scheduled
    && overlapCond v.visit_time_start v.visit_time_end timeStart timeEnd)

/-- The payload of `scheduleVisit`. -/
structure VisitData where
  prisoner_id : Nat
  visitor_id : Nat
  visit_date : Nat
  visit_time_start : Nat
  visit_time_end : Nat
  notes : Option String
  deriving DecidableEq

/-- `scheduleVisit(visitData, userId, userPrisonId, userRole)`: prisoner must
exist and be Active, caller must have access, visitor must exist, and no
conflicting Scheduled visit may exist; the created visit is Scheduled with
`approved_by` set to the scheduling user.  Returns the committed store and
the new visit's id. -/
def scheduleVisit (db : DB) (visitData : VisitData) (userId : Nat)
    (userPrisonId : Option Nat) (userRole : Role) (newId : Nat) :
    Except Err (DB × Nat) :=
  match findPrisoner db visitData.prisoner_id with
  | none => Except.error Err.prisonerNotFound
  | some prisoner =>
    if ¬(prisoner.status == PrisonerStatus.active) then
      Except.error Err.prisonerNotActive
    else if ¬checkPrisonAccess userPrisonId prisoner.prison_id userRole then
      Except.error Err.accessDenied
    else
      match findVisitor db visitData.visitor_id with
      | none => Except.error Err.visitorNotFound
      | some _ =>
        if (findConflictingVisit db.visits none visitData.prisoner_id
              visitData.visit_date visitData.visit_time_start
              visitData.visit_time_end).isSome then
          Except.error Err.visitConflict
        else
          Except.ok ({ db with visits := db.visits ++
            [{ visit_id := newId
               prisoner_id := visitData.prisoner_id
               visitor_id := visitData.visitor_id
               visit_date := visitData.visit_date
               visit_time_start := visitData.visit_time_start
               visit_time_end := visitData.visit_time_end
               status := VisitStatus.scheduled
               notes := if strTruthy visitData.notes then visitData.notes else none
               approved_by := some userId }] }, newId)

/-- The `updateVisit` payload (only defined keys are applied; `undefined`
keys are stripped before the instance update). -/
structure VisitUpdateData where
  visit_date : Option Nat
  visit_time_start : Option Nat
  visit_time_end : Option Nat
  notes : Option String
  deriving DecidableEq

/-- `updateVisit(visitId, updateData, userPrisonId, userRole)`: only a
Scheduled visit may be edited; when any of date/start/end is supplied, the
conflict probe runs against the merged window excluding the visit itself. -/
def updateVisit (db : DB) (visitId : Nat) (updateData : VisitUpdateData)
    (userPrisonId : Option Nat) (userRole : Role) : Except Err DB :=
  match findVisit db visitId with
  | none => Except.error Err.visitNotFound
  | some visit =>
    match findPrisoner db visit.prisoner_id with
    | none => Except.error Err.typeError
    | some prisoner =>
      if ¬checkPrisonAccess userPrisonId prisoner.prison_id userRole then
        Except.error Err.accessDenied
      else if ¬(visit.status == VisitStatus.scheduled) then
        Except.error Err.cannotUpdateNonScheduled
      else
        if (updateData.visit_date.isSome || updateData.visit_time_start.isSome
              || updateData.visit_time_end.isSome)
            && (findConflictingVisit db.visits (some visitId) visit.prisoner_id
                  (updateData.visit_date.getD visit.visit_date)
                  (updateData.visit_time_start.getD visit.visit_time_start)
                  (updateData.visit_time_end.getD visit.visit_time_end)).isSome then
          Except.error Err.visitConflict
        else
          Except.ok { db with
            visits := updateWhere db.visits
              (fun v => v.visit_id == visitId)
              (fun v => { v with
                visit_date := updateData.visit_date.getD v.visit_date
                visit_time_start := updateData.visit_time_start.getD v.visit_time_start
                visit_time_end := updateData.visit_time_end.getD v.visit_time_end
                notes := match updateData.notes with
                         | some n => some n
                         | none => v.notes }) }

/-- `Object.values(VISIT_STATUS).includes(status)` on the raw status string. -/
def parseVisitStatus (s : String) : Option VisitStatus :=
  if s == "Scheduled" then some VisitStatus.scheduled
  else if s == "Completed" then some VisitStatus.completed
  else if s == "Cancelled" then some VisitStatus.cancelled
  else none

/-- `updateVisitStatus(visitId, status, notes, userPrisonId, userRole)`: after
the access check, the only validation is enum membership of the incoming
status string — any Scheduled/Completed/Cancelled value is written with NO
conflict probe. -/
def updateVisitStatus (db : DB) (visitId : Nat) (statusRaw : String)
    (notes : Option String) (userPrisonId : Option Nat) (userRole : Role) :
    Except Err DB :=
  match findVisit db visitId with
  | none => Except.error Err.visitNotFound
  | some visit =>
    match findPrisoner db visit.prisoner_id with
    | none => Except.error Err.typeError
    | some prisoner =>
      if ¬checkPrisonAccess userPrisonId prisoner.prison_id userRole then
        Except.error Err.accessDenied
      else
        match parseVisitStatus statusRaw with
        | none => Except.error Err.invalidVisitStatus
        | some status =>
          Except.ok { db with
            visits := updateWhere db.visits
              (fun v => v.visit_id == visitId)
              (fun v => { v with
                status := status
                notes := if strTruthy notes then notes else v.notes }) }

/-- `deleteVisit(visitId, userPrisonId, userRole)`: Completed visits may not
be deleted; otherwise the row is destroyed. -/
def deleteVisit (db : DB) (visitId : Nat) (userPrisonId : Option Nat)
    (userRole : Role) : Except Err DB :=
  match findVisit db visitId with
  | none => Except.error Err.visitNotFound
  | some visit =>
    match findPrisoner db visit.prisoner_id with
    | none => Except.error Err.typeError
    | some prisoner =>
      if ¬checkPrisonAccess userPrisonId prisoner.prison_id userRole then
        Except.error Err.accessDenied
      else if visit.status == VisitStatus.completed then
        Except.error Err.cannotDeleteCompleted
      else
        Except.ok { db with
          visits := db.visits.filter (fun v => ¬(v.visit_id == visitId)) }

/-- `approveVisit(visitId, userId, userPrisonId, userRole)`: rejects when
`visit.approved_by` is already truthy, otherwise stamps the approver. -/
def approveVisit (db : DB) (visitId : Nat) (userId : Nat)
    (userPrisonId : Option Nat) (userRole : Role) : Except Err DB :=
  match findVisit db visitId with
  | none => Except.error Err.visitNotFound
  | some visit =>
    match findPrisoner db visit.prisoner_id with
    | none => Except.error Err.typeError
    | some prisoner =>
      if ¬checkPrisonAccess userPrisonId prisoner.prison_id userRole then
        Except.error Err.accessDenied
      else if optNatTruthy visit.approved_by then
        Except.error Err.alreadyApproved
      else
        Except.ok { db with
          visits := updateWhere db.visits
            (fun v => v.visit_id == visitId)
            (fun v => { v with approved_by := some userId }) }

/-! ## Work-record service (`workRecordService`) -/

/-- The `updateWorkRecord` payload (only defined keys are applied; payment
status and payment date are never in the allowed set). -/
structure WorkRecordUpdateData where
  task_description : Option String
  work_date : Option Int
  hours_worked : Option Int
  payment_amount : Option Int
  deriving DecidableEq

/-- `updateWorkRecord(workRecordId, updateData, userPrisonId, userRole)`:
a Paid record rejects any edit; otherwise only
task/date/hours/amount fields are written. -/
def updateWorkRecord (db : DB) (workRecordId : Nat)
    (updateData : WorkRecordUpdateData) (userPrisonId : Option Nat)
    (userRole : Role) : Except Err DB :=
  match findWorkRecord db workRecordId with
  | none => Except.error Err.workRecordNotFound
  | some workRecord =>
    match findPrisoner db workRecord.prisoner_id with
    | none => Except.error Err.typeError
    | some prisoner =>
      if ¬checkPrisonAccess userPrisonId prisoner.prison_id userRole then
        Except.error Err.accessDenied
      else if workRecord.payment_status == PayStatus.paid then
        Except.error Err.cannotUpdatePaid
      else
        Except.ok { db with
          workRecords := updateWhere db.workRecords
            (fun w => w.work_record_id == workRecordId)
            (fun w => { w with
              task_description := updateData.task_description.getD w.task_description
              work_date := updateData.work_date.getD w.work_date
              hours_worked := updateData.hours_worked.getD w.hours_worked
              payment_amount := updateData.payment_amount.getD w.payment_amount }) }

/-- `deleteWorkRecord(workRecordId, userPrisonId, userRole)`: a Paid record
rejects deletion; otherwise the row is destroyed. -/
def deleteWorkRecord (db : DB) (workRecordId : Nat) (userPrisonId : Option Nat)
    (userRole : Role) : Except Err DB :=
  match findWorkRecord db workRecordId with
  | none => Except.error Err.workRecordNotFound
  | some workRecord =>
    match findPrisoner db workRecord.prisoner_id with
    | none => Except.error Err.typeError
    | some prisoner =>
      if ¬checkPrisonAccess userPrisonId prisoner.prison_id userRole then
        Except.error Err.accessDenied
      else if workRecord.payment_status == PayStatus.paid then
        Except.error Err.cannotDeletePaid
      else
        Except.ok { db with
          workRecords := db.workRecords.filter
            (fun w => ¬(w.work_record_id == workRecordId)) }

/-- `approvePayment(workRecordId, paymentDate, userPrisonId, userRole)`:
rejects an already-Paid record, otherwise sets `payment_status = Paid` and
`payment_date = paymentDate || now`. -/
def approvePayment (db : DB) (workRecordId : Nat) (paymentDate : Option Int)
    (userPrisonId : Option Nat) (userRole : Role) (now : Int) : Except Err DB :=
  match findWorkRecord db workRecordId with
  | none => Except.error Err.workRecordNotFound
  | some workRecord =>
    match findPrisoner db workRecord.prisoner_id with
    | none => Except.error Err.typeError
    | some prisoner =>
      if ¬checkPrisonAccess userPrisonId prisoner.prison_id userRole then
        Except.error Err.accessDenied
      else if workRecord.payment_status == PayStatus.paid then
        Except.error Err.alreadyPaid
      else
        Except.ok { db with
          workRecords := updateWhere db.workRecords
            (fun w => w.work_record_id == workRecordId)
            (fun w => { w with
              payment_status := PayStatus.paid
              payment_date := some (paymentDate.getD now) }) }

/-! ## Behaviour service (`behaviourService`)

`updateBehaviourRecord` and `rejectSentenceAdjustment` load the behaviour
record with `include: [{ model: db.Prisoner, as: 'prisoner',
attributes: ['prison_id'] }]` — no nested Prison include — and then evaluate
`behaviourRecord.prisoner.prison.prison_id` as the access-check argument.
`prisoner.prison` on that loaded row is `undefined`, so the property read
raises a `TypeError` before the access check is even called.  The loaded-row
shape is made explicit below so this is visible in the model. -/

/-- The prisoner association as loaded by a behaviour-record `include`:
`prison_id` is always selected; `prison` carries the nested Prison row only
when the include nests the Prison model. -/
structure IncludedPrisoner where
  prison_id : Nat
  prison : Option Prison
  deriving DecidableEq

/-- JS property read `x.prison.prison_id` where `x.prison` may be
`undefined`: a missing association is a `TypeError`. -/
def readPrisonIdOfIncludedPrison (prison : Option Prison) : Except Err Nat :=
  match prison with
  | none => Except.error Err.typeError
  | some p => Except.ok p.prison_id

/-- The payload of `createBehaviourRecord` (fields the service consults). -/
structure BehaviourData where
  prisoner_id : Nat
  sentence_adjustment_days : Option Int
  notes : Option String
  deriving DecidableEq

/-- `createBehaviourRecord(behaviourData, userId, userPrisonId, userRole)`:
prisoner must exist and be Active; the record's adjustment status is Pending
exactly when a nonzero `sentence_adjustment_days` is supplied, else `'N/A'`. -/
def createBehaviourRecord (db : DB) (behaviourData : BehaviourData)
    (userId : Nat) (userPrisonId : Option Nat) (userRole : Role)
    (newId : Nat) : Except Err DB :=
  match findPrisoner db behaviourData.prisoner_id with
  | none => Except.error Err.prisonerNotFound
  | some prisoner =>
    if ¬(prisoner.status == PrisonerStatus.active) then
      Except.error Err.prisonerNotActive
    else if ¬checkPrisonAccess userPrisonId prisoner.prison_id userRole then
      Except.error Err.accessDenied
    else
      Except.ok { db with
        behaviourRecords := db.behaviourRecords ++
          [{ behaviour_id := newId
             prisoner_id := behaviourData.prisoner_id
             sentence_adjustment_days := behaviourData.sentence_adjustment_days.getD 0
             adjustment_status :=
               if (match behaviourData.sentence_adjustment_days with
                   | some d => d != 0
                   | none => false) then AdjStatus.pending
               else AdjStatus.notApplicable
             adjustment_approved_at := none
             notes := behaviourData.notes
             recorded_by := userId }] }

/-- The `updateBehaviourRecord` payload (defined keys only). -/
structure BehaviourUpdateData where
  sentence_adjustment_days : Option Int
  notes : Option String
  deriving DecidableEq

/-- `updateBehaviourRecord(behaviourRecordId, updateData, userPrisonId,
userRole)`: the include loads the prisoner without its nested prison, yet the
access check reads `prisoner.prison.prison_id`, so every call that finds the
record ends in a `TypeError`; the Approved guard and the Pending/`'N/A'`
status recomputation below it are unreachable. -/
def updateBehaviourRecord (db : DB) (behaviourRecordId : Nat)
    (updateData : BehaviourUpdateData) (userPrisonId : Option Nat)
    (userRole : Role) : Except Err DB :=
  match findBehaviourRecord db behaviourRecordId with
  | none => Except.error Err.behaviourRecordNotFound
  | some behaviourRecord =>
    match findPrisoner db behaviourRecord.prisoner_id with
    | none => Except.error Err.typeError
    | some prisonerRow =>
      -- include: prisoner with attributes ['prison_id'], no nested Prison
      match readPrisonIdOfIncludedPrison
          (IncludedPrisoner.mk prisonerRow.prison_id none).prison with
      | Except.error e => Except.error e
      | Except.ok accessPrisonId =>
        if ¬checkPrisonAccess userPrisonId accessPrisonId userRole then
          Except.error Err.accessDenied
        else if behaviourRecord.adjustment_status == AdjStatus.approved then
          Except.error Err.cannotUpdateApproved
        else
          Except.ok { db with
            behaviourRecords := updateWhere db.behaviourRecords
              (fun b => b.behaviour_id == behaviourRecordId)
              (fun b =>
                match updateData.sentence_adjustment_days with
                | some d =>
                  { b with
                    sentence_adjustment_days := d
                    adjustment_status :=
                      if d != 0 then AdjStatus.pending
                      else AdjStatus.notApplicable
                    notes := match updateData.notes with
                             | some n => some n
                             | none => b.notes }
                | none =>
                  { b with notes := match updateData.notes with
                                    | some n => some n
                                    | none => b.notes }) }

/-- `deleteBehaviourRecord(behaviourRecordId, userPrisonId, userRole)`: its
access check correctly reads `prisoner.prison_id`; an Approved record rejects
deletion, others are destroyed. -/
def deleteBehaviourRecord (db : DB) (behaviourRecordId : Nat)
    (userPrisonId : Option Nat) (userRole : Role) : Except Err DB :=
  match findBehaviourRecord db behaviourRecordId with
  | none => Except.error Err.behaviourRecordNotFound
  | some behaviourRecord =>
    match findPrisoner db behaviourRecord.prisoner_id with
    | none => Except.error Err.typeError
    | some prisoner =>
      if ¬checkPrisonAccess userPrisonId prisoner.prison_id userRole then
        Except.error Err.accessDenied
      else if behaviourRecord.adjustment_status == AdjStatus.approved then
        Except.error Err.cannotDeleteApproved
      else
        Except.ok { db with
          behaviourRecords := db.behaviourRecords.filter
            (fun b => ¬(b.behaviour_id == behaviourRecordId)) }

/-- `approveSentenceAdjustment(behaviourRecordId, notes, userPrisonId,
userRole)`: requires a Pending record with nonzero adjustment days; in one
transaction shifts the prisoner's `expected_release_date` by the adjustment
days (skipped when it is null) and marks the record Approved with
`adjustment_approved_at = now`. -/
def approveSentenceAdjustment (db : DB) (behaviourRecordId : Nat)
    (notes : Option String) (userPrisonId : Option Nat) (userRole : Role)
    (now : Int) : Except Err DB :=
  match findBehaviourRecord db behaviourRecordId with
  | none => Except.error Err.behaviourRecordNotFound
  | some behaviourRecord =>
    match findPrisoner db behaviourRecord.prisoner_id with
    | none => Except.error Err.typeError
    | some prisoner =>
      if ¬checkPrisonAccess userPrisonId prisoner.prison_id userRole then
        Except.error Err.accessDenied
      else if ¬(behaviourRecord.adjustment_status == AdjStatus.pending) then
        Except.error Err.noPendingAdjustment
      else if behaviourRecord.sentence_adjustment_days == 0 then
        Except.error Err.noAdjustmentDays
      else
        Except.ok { db with
          prisoners :=
            match prisoner.expected_release_date with
            | some currentEndDate =>
              updateWhere db.prisoners
                (fun p => p.prisoner_id == prisoner.prisoner_id)
                (fun p => { p with
                  expected_release_date :=
                    some (currentEndDate.addDays
                      behaviourRecord.sentence_adjustment_days) })
            | none => db.prisoners
          behaviourRecords := updateWhere db.behaviourRecords
            (fun b => b.behaviour_id == behaviourRecordId)
            (fun b => { b with
              adjustment_status := AdjStatus.approved
              adjustment_approved_at := some now
              notes := if strTruthy notes then notes else b.notes }) }

/-- `rejectSentenceAdjustment(behaviourRecordId, reason, userPrisonId,
userRole)`: like `updateBehaviourRecord`, the access check reads
`prisoner.prison.prison_id` off an include that never loads the nested
prison, so every call that finds the record raises a `TypeError`; the
Pending guard and the Rejected write are unreachable. -/
def rejectSentenceAdjustment (db : DB) (behaviourRecordId : Nat)
    (reason : Option String) (userPrisonId : Option Nat) (userRole : Role) :
    Except Err DB :=
  match findBehaviourRecord db behaviourRecordId with
  | none => Except.error Err.behaviourRecordNotFound
  | some behaviourRecord =>
    match findPrisoner db behaviourRecord.prisoner_id with
    | none => Except.error Err.typeError
    | some prisonerRow =>
      -- include: prisoner with attributes ['prison_id'], no nested Prison
      match readPrisonIdOfIncludedPrison
          (IncludedPrisoner.mk prisonerRow.prison_id none).prison with
      | Except.error e => Except.error e
      | Except.ok accessPrisonId =>
        if ¬checkPrisonAccess userPrisonId accessPrisonId userRole then
          Except.error Err.accessDenied
        else if ¬(behaviourRecord.adjustment_status == AdjStatus.pending) then
          Except.error Err.noPendingAdjustment
        else
          Except.ok { db with
            behaviourRecords := updateWhere db.behaviourRecords
              (fun b => b.behaviour_id == behaviourRecordId)
              (fun b => { b with
                adjustment_status := AdjStatus.rejected
                notes := match reason with
                         | some r => some ("REJECTION REASON: " ++ r)
                         | none => b.notes }) }

/-! ## Well-formedness and the capacity invariant -/

/-- Primary keys are unique (auto-increment columns). -/
def WF (db : DB) : Prop :=
  (db.prisons.map Prison.prison_id).Nodup
    ∧ (db.prisoners.map Prisoner.prisoner_id).Nodup

instance : DecidablePred WF := fun db => by
  unfold WF; infer_instance

/-- §3 Facility invariant: every prison's Active population is within its
capacity. -/
def CapacityInv (db : DB) : Prop :=
  ∀ pr ∈ db.prisons, (activeCount db pr.prison_id : Int) ≤ pr.capacity

instance : DecidablePred CapacityInv := fun db => by
  unfold CapacityInv; infer_instance

/-- The operations of the claimed capacity invariant: admission, transfer,
release, delete (release/decease), and prison update. -/
inductive PrisonerOp where
  | register (data : RegisterData) (userPrisonId : Option Nat) (userRole : Role)
      (now : Int) (newId : Nat)
  | transfer (prisonerId targetPrisonId : Nat) (userPrisonId : Option Nat)
      (userRole : Role)
  | release (prisonerId : Nat) (userPrisonId : Option Nat) (userRole : Role)
      (now : Int)
  | remove (prisonerId : Nat) (reason : String) (userPrisonId : Option Nat)
      (userRole : Role) (now : Int)
  | prisonUpdate (prisonId : Nat) (updateData : PrisonUpdateData) (userRole : Role)

/-- Dispatch a lifecycle operation to the corresponding service call. -/
def applyPrisonerOp (op : PrisonerOp) (db : DB) : Except Err DB :=
  match op with
  | PrisonerOp.register data upid role now newId =>
      registerPrisoner db data upid role now newId
  | PrisonerOp.transfer pid target upid role =>
      transferPrisoner db pid target upid role
  | PrisonerOp.release pid upid role now => releasePrisoner db pid upid role now
  | PrisonerOp.remove pid reason upid role now =>
      deletePrisoner db pid reason upid role now
  | PrisonerOp.prisonUpdate prisonId upd role => updatePrison db prisonId upd role

/-! ## Visit-overlap notions and operation families -/

/-- Closed-interval overlap: what `overlapCond` amounts to on well-formed
windows (see `overlapCond_iff_closedOverlap`). -/
def closedOverlap (existStart existEnd reqStart reqEnd : Nat) : Bool :=
  existStart ≤ reqEnd && existEnd ≥ reqStart

/-- Half-open interval overlap of two visits' `[timeStart, timeEnd)` windows,
as the specification defines conflicts. -/
def halfOpenOverlap (v w : Visit) : Prop :=
  v.visit_time_start < w.visit_time_end ∧ w.visit_time_start < v.visit_time_end

instance (v w : Visit) : Decidable (halfOpenOverlap v w) := by
  unfold halfOpenOverlap; infer_instance

/-- Modelled from the spec: `hasConflict(personId, date, timeStart, timeEnd,
excludeVisitId?)` is "true iff any other Scheduled visit for the same person
on the same date has `timeStart < queryEnd AND timeEnd > queryStart`
(half-open interval overlap)".  This is the specification's contract, stated
for comparison with `findConflictingVisit` from the source. -/
def hasConflictSpecHalfOpen (visits : List Visit) (excludeVisitId : Option Nat)
    (prisonerId visitDate timeStart timeEnd : Nat) : Bool :=
  visits.any (fun v =>
    (match excludeVisitId with
     | some ex => v.visit_id != ex
     | none => true)
    && v.prisoner_id == prisonerId
    && v.visit_date == visitDate
    && v.status == VisitStatus.scheduled
    && (decide (v.visit_time_start < timeEnd)
        && decide (v.visit_time_end > timeStart)))

/-- §3 Visit invariant: no two Scheduled visits of one person on one date
have overlapping half-open windows. -/
def NoVisitOverlap (db : DB) : Prop :=
  ∀ v ∈ db.visits, ∀ w ∈ db.visits, v.visit_id ≠ w.visit_id →
    v.prisoner_id = w.prisoner_id → v.visit_date = w.visit_date →
    v.status = VisitStatus.scheduled → w.status = VisitStatus.scheduled →
    ¬ halfOpenOverlap v w

instance : DecidablePred NoVisitOverlap := fun db => by
  unfold NoVisitOverlap; infer_instance

/-- The visit operations that run the conflict probe (schedule, update) or
remove visits (delete). -/
inductive VisitOp where
  | schedule (visitData : VisitData) (userId : Nat) (userPrisonId : Option Nat)
      (userRole : Role) (newId : Nat)
  | update (visitId : Nat) (updateData : VisitUpdateData)
      (userPrisonId : Option Nat) (userRole : Role)
  | delete (visitId : Nat) (userPrisonId : Option Nat) (userRole : Role)

/-- Dispatch a visit operation to the corresponding service call. -/
def applyVisitOp (op : VisitOp) (db : DB) : Except Err DB :=
  match op with
  | VisitOp.schedule visitData userId upid role newId =>
      Except.map Prod.fst (scheduleVisit db visitData userId upid role newId)
  | VisitOp.update visitId updateData upid role =>
      updateVisit db visitId updateData upid role
  | VisitOp.delete visitId upid role => deleteVisit db visitId upid role

/-- All behaviour-record operations. -/
inductive BehaviourOp where
  | create (behaviourData : BehaviourData) (userId : Nat)
      (userPrisonId : Option Nat) (userRole : Role) (newId : Nat)
  | update (behaviourRecordId : Nat) (updateData : BehaviourUpdateData)
      (userPrisonId : Option Nat) (userRole : Role)
  | delete (behaviourRecordId : Nat) (userPrisonId : Option Nat) (userRole : Role)
  | approve (behaviourRecordId : Nat) (notes : Option String)
      (userPrisonId : Option Nat) (userRole : Role) (now : Int)
  | reject (behaviourRecordId : Nat) (reason : Option String)
      (userPrisonId : Option Nat) (userRole : Role)

/-- Dispatch a behaviour-record operation to the corresponding service call. -/
def applyBehaviourOp (op : BehaviourOp) (db : DB) : Except Err DB :=
  match op with
  | BehaviourOp.create behaviourData userId upid role newId =>
      createBehaviourRecord db behaviourData userId upid role newId
  | BehaviourOp.update behaviourRecordId updateData upid role =>
      updateBehaviourRecord db behaviourRecordId updateData upid role
  | BehaviourOp.delete behaviourRecordId upid role =>
      deleteBehaviourRecord db behaviourRecordId upid role
  | BehaviourOp.approve behaviourRecordId notes upid role now =>
      approveSentenceAdjustment db behaviourRecordId notes upid role now
  | BehaviourOp.reject behaviourRecordId reason upid role =>
      rejectSentenceAdjustment db behaviourRecordId reason upid role

/-! ## Concrete stores and runs used as witnesses and counterexamples -/

/-- Two prisons and one Active prisoner; room to admit one more. -/
def c1db : DB :=
  { prisons := [⟨1, "Alpha", 2, true⟩, ⟨2, "Beta", 3, true⟩]
    prisoners := [⟨1, "P One", "N1", "C1", PrisonerStatus.active, 1, 0, none, none⟩]
    visitors := [], visits := [], workRecords := [], behaviourRecords := [] }

/-- An admission into `c1db`'s prison 1. -/
def c1op : PrisonerOp :=
  PrisonerOp.register ⟨"P Two", "N2", "C2", none, none, none⟩ (some 1)
    Role.prisonAdmin 5 2

/-- The store after the `c1op` admission commits. -/
def c1db1 : DB := (applyPrisonerOp c1op c1db).toOption.getD c1db

/-- Two prisons at exact capacity 1 with one Active prisoner each. -/
def c1full : DB :=
  { prisons := [⟨1, "Alpha", 1, true⟩, ⟨2, "Beta", 1, true⟩]
    prisoners := [⟨1, "P One", "N1", "C1", PrisonerStatus.active, 1, 0, none, none⟩,
                  ⟨2, "P Two", "N2", "C2", PrisonerStatus.active, 2, 0, none, none⟩]
    visitors := [], visits := [], workRecords := [], behaviourRecords := [] }

/-- A Released prisoner in prison 1; prison 2 has room. -/
def c2db : DB :=
  { prisons := [⟨1, "Alpha", 10, true⟩, ⟨2, "Beta", 10, true⟩]
    prisoners := [⟨1, "P One", "N1", "C1", PrisonerStatus.released, 1, 0, none,
                   some 3⟩]
    visitors := [], visits := [], workRecords := [], behaviourRecords := [] }

/-- The store after transferring the Released prisoner of `c2db` to prison 2. -/
def c2db1 : DB :=
  (transferPrisoner c2db 1 2 none Role.superAdmin).toOption.getD c2db

/-- A Deceased prisoner with an `actual_release_date` already fixed at 7. -/
def c3db : DB :=
  { prisons := [⟨1, "Alpha", 10, true⟩]
    prisoners := [⟨1, "P One", "N1", "C1", PrisonerStatus.deceased, 1, 0, none,
                   some 7⟩]
    visitors := [], visits := [], workRecords := [], behaviourRecords := [] }

/-- The store after calling `releasePrisoner` (at now = 42) on the Deceased
prisoner of `c3db`. -/
def c3db1 : DB :=
  (releasePrisoner c3db 1 none Role.superAdmin 42).toOption.getD c3db

/-- The store after calling `deletePrisoner` with reason `'deceased'`
(at now = 42) on the already-Deceased prisoner of `c3db`. -/
def c3db2 : DB :=
  (deletePrisoner c3db 1 "deceased" none Role.superAdmin 42).toOption.getD c3db

/-- An Active prisoner expected to be released 2025-06-01, with a Pending
positive behaviour record proposing a 10-day reduction. -/
def c4db : DB :=
  { prisons := [⟨1, "Alpha", 10, true⟩]
    prisoners := [⟨1, "P One", "N1", "C1", PrisonerStatus.active, 1, 0,
                   some ⟨2025, 6, 1⟩, none⟩]
    visitors := [], visits := [], workRecords := []
    behaviourRecords := [⟨1, 1, -10, AdjStatus.pending, none, none, 9⟩] }

/-- The store after approving the adjustment of `c4db` at now = 7. -/
def c4db1 : DB :=
  (approveSentenceAdjustment c4db 1 none none Role.superAdmin 7).toOption.getD c4db

/-- An already-Approved behaviour record. -/
def c5db : DB :=
  { prisons := [⟨1, "Alpha", 10, true⟩]
    prisoners := [⟨1, "P One", "N1", "C1", PrisonerStatus.active, 1, 0,
                   some ⟨2025, 6, 1⟩, none⟩]
    visitors := [], visits := [], workRecords := []
    behaviourRecords := [⟨1, 1, -10, AdjStatus.approved, some 4, none, 9⟩] }

/-- A Pending behaviour record to approve (C6 instance). -/
def c6db : DB :=
  { prisons := [⟨1, "Alpha", 10, true⟩]
    prisoners := [⟨1, "P One", "N1", "C1", PrisonerStatus.active, 1, 0, none, none⟩]
    visitors := [], visits := [], workRecords := []
    behaviourRecords := [⟨1, 1, 5, AdjStatus.pending, none, none, 9⟩] }

/-- The approval of `c6db`'s record, as a behaviour operation. -/
def c6op : BehaviourOp := BehaviourOp.approve 1 none none Role.superAdmin 11

/-- The store after `c6op` commits on `c6db`. -/
def c6db1 : DB := (applyBehaviourOp c6op c6db).toOption.getD c6db

/-- One Scheduled visit 09:00–09:30 (minutes 540–570) on day 100. -/
def c7db : DB :=
  { prisons := [⟨1, "Alpha", 10, true⟩]
    prisoners := [⟨1, "P One", "N1", "C1", PrisonerStatus.active, 1, 0, none, none⟩]
    visitors := [⟨1, "V1"⟩]
    visits := [⟨1, 1, 1, 100, 540, 570, VisitStatus.scheduled, some 1, none⟩]
    workRecords := [], behaviourRecords := [] }

/-- Base store of the C8 run: an Active prisoner, a visitor, no visits. -/
def c8db0 : DB :=
  { prisons := [⟨1, "Alpha", 10, true⟩]
    prisoners := [⟨1, "P One", "N1", "C1", PrisonerStatus.active, 1, 0, none, none⟩]
    visitors := [⟨1, "V1"⟩]
    visits := [], workRecords := [], behaviourRecords := [] }

/-- C8 step 1: schedule visit 1 at 09:00–09:30 on day 100. -/
def c8s1 : DB :=
  ((scheduleVisit c8db0 ⟨1, 1, 100, 540, 570, none⟩ 5 none Role.superAdmin 1
    ).toOption.getD (c8db0, 0)).1

/-- C8 step 2: cancel visit 1 through `updateVisitStatus`. -/
def c8s2 : DB :=
  (updateVisitStatus c8s1 1 "Cancelled" none none Role.superAdmin
    ).toOption.getD c8s1

/-- C8 step 3: schedule visit 2 at 09:15–09:45 — no conflict is found because
visit 1 is Cancelled. -/
def c8s3 : DB :=
  ((scheduleVisit c8s2 ⟨1, 1, 100, 555, 585, none⟩ 5 none Role.superAdmin 2
    ).toOption.getD (c8s2, 0)).1

/-- C8 step 4: set visit 1 back to Scheduled through `updateVisitStatus`,
which runs no conflict probe. -/
def c8s4 : DB :=
  (updateVisitStatus c8s3 1 "Scheduled" none none Role.superAdmin
    ).toOption.getD c8s3

/-- Work record 1 is Paid; work record 2 is Pending. -/
def c9db : DB :=
  { prisons := [⟨1, "Alpha", 10, true⟩]
    prisoners := [⟨1, "P One", "N1", "C1", PrisonerStatus.active, 1, 0, none, none⟩]
    visitors := [], visits := []
    workRecords := [⟨1, 1, "mason work", 2, 8, 1200, PayStatus.paid, some 3, 9⟩,
                    ⟨2, 1, "kitchen duty", 2, 6, 900, PayStatus.pending, none, 9⟩]
    behaviourRecords := [] }

/-- The store after approving payment of `c9db`'s Pending record 2. -/
def c9db1 : DB :=
  (approvePayment c9db 2 (some 8) none Role.superAdmin 6).toOption.getD c9db

/-- An Active prisoner and a visitor, no visits yet (C10 instance). -/
def c10db : DB :=
  { prisons := [⟨1, "Alpha", 10, true⟩]
    prisoners := [⟨1, "P One", "N1", "C1", PrisonerStatus.active, 1, 0, none, none⟩]
    visitors := [⟨1, "V1"⟩]
    visits := [], workRecords := [], behaviourRecords := [] }

/-- The store after user 5 schedules a visit in `c10db`. -/
def c10db1 : DB :=
  ((scheduleVisit c10db ⟨1, 1, 100, 540, 570, none⟩ 5 none Role.superAdmin 1
    ).toOption.getD (c10db, 0)).1

/-! ### Counting helper lemmas -/

theorem countP_or_le (l : List α) (p q : α → Bool) :
    l.countP (fun a => p a || q a) ≤ l.countP p + l.countP q := by
  induction l with
  | nil => simp [List.countP_nil]
  | cons a t ih =>
    simp only [List.countP_cons]
    cases hp : p a <;> cases hq : q a <;> simp [hp, hq] <;> omega

theorem countP_beq_le_one {f : α → Nat} {l : List α}
    (h : (l.map f).Nodup) (k : Nat) :
    l.countP (fun a => f a == k) ≤ 1 := by
  induction l with
  | nil => simp [List.countP_nil]
  | cons a t ih =>
    simp only [List.map_cons, List.nodup_cons] at h
    simp only [List.countP_cons]
    by_cases hk : f a = k
    · have hz : t.countP (fun a => f a == k) = 0 := by
        rw [List.countP_eq_zero]
        intro b hb
        simp only [beq_iff_eq]
        intro hbk
        exact h.1 (List.mem_map.mpr ⟨b, hb, hbk.trans hk.symm⟩)
      simp [hz, hk]
    · simpa [hk] using ih h.2

theorem countP_updateWhere_le_add (l : List α) (c : α → Bool) (g : α → α)
    (q : α → Bool) :
    (updateWhere l c g).countP q ≤ l.countP q + l.countP c := by
  unfold updateWhere
  rw [List.countP_map]
  calc l.countP (fun a => q (if c a then g a else a))
      ≤ l.countP (fun a => q a || c a) := by
        apply List.countP_mono_left
        intro a _ ha
        by_cases hc : c a = true
        · simp [hc]
        · simp only [Bool.not_eq_true] at hc
          simp only [hc, if_neg] at ha
          simp_all
    _ ≤ l.countP q + l.countP c := countP_or_le l q c

theorem countP_updateWhere_le (l : List α) (c : α → Bool) (g : α → α)
    (q : α → Bool) (h : ∀ a ∈ l, c a = true → q (g a) = false) :
    (updateWhere l c g).countP q ≤ l.countP q := by
  unfold updateWhere
  rw [List.countP_map]
  apply List.countP_mono_left
  intro a ha hqa
  simp only [Function.comp_apply] at hqa
  by_cases hc : c a = true
  · rw [if_pos hc] at hqa
    rw [h a ha hc] at hqa
    exact absurd hqa (by simp)
  · simp only [Bool.not_eq_true] at hc
    simpa [hc] using hqa

/-- A found row is the unique row with its key when keys are nodup. -/
theorem find?_key_unique {f : α → Nat} {l : List α} {b c : α} {k : Nat}
    (hnd : (l.map f).Nodup) (hfind : l.find? (fun a => f a == k) = some b)
    (hc : c ∈ l) (hck : f c = k) : c = b := by
  have hb : b ∈ l := List.mem_of_find?_eq_some hfind
  have hbk : f b = k := by simpa using List.find?_some hfind
  exact List.inj_on_of_nodup_map hnd hc hb (hck.trans hbk.symm)

/-- Updating the found row by its key yields the updated row on re-lookup,
provided the update preserves the key. -/
theorem find?_updateWhere_self {f : α → Nat} {l : List α} {k : Nat} {g : α → α}
    {b : α} (hg : ∀ a, f (g a) = f a)
    (hfind : l.find? (fun a => f a == k) = some b) :
    (updateWhere l (fun a => f a == k) g).find? (fun a => f a == k)
      = some (g b) := by
  induction l with
  | nil => cases hfind
  | cons hd tl ih =>
    unfold updateWhere
    simp only [List.map_cons, List.find?_cons] at hfind ⊢
    by_cases hhd : (f hd == k) = true
    · simp only [hhd] at hfind ⊢
      injection hfind with hb
      subst hb
      simp [hg, hhd]
    · have hfalse : (f hd == k) = false := by
        simpa using hhd
      simp [hfalse] at hfind ⊢
      have h2 := ih hfind
      unfold updateWhere at h2
      simpa using h2

/-- `find?` skips a prefix in which nothing matches. -/
theorem find?_append_of_none {l1 l2 : List α} {p : α → Bool}
    (h : l1.find? p = none) : (l1 ++ l2).find? p = l2.find? p := by
  rw [List.find?_append, h, Option.none_or]

theorem isSome_false_eq_none {o : Option α} (h : o.isSome = false) :
    o = none := by
  cases o with
  | none => rfl
  | some a => cases h

/-! ### Per-operation preservation of the capacity invariant -/

theorem activeCount_set_prisoners (db : DB) (l : List Prisoner) (f : Nat) :
    activeCount { db with prisoners := l } f
      = l.countP (fun p => p.prison_id == f
          && p.status == PrisonerStatus.active) := rfl

theorem activeCount_def (db : DB) (f : Nat) :
    activeCount db f
      = db.prisoners.countP (fun p => p.prison_id == f
          && p.status == PrisonerStatus.active) := rfl

theorem activeCount_set_prisons (db : DB) (l : List Prison) (f : Nat) :
    activeCount { db with prisons := l } f = activeCount db f := rfl

theorem registerPrisoner_preserves_capacity
    {db db' : DB} {data : RegisterData} {upid : Option Nat} {role : Role}
    {now : Int} {newId : Nat}
    (hwf : WF db) (hinv : CapacityInv db)
    (hok : registerPrisoner db data upid role now newId = Except.ok db') :
    CapacityInv db' := by
  unfold registerPrisoner at hok
  split at hok
  · cases hok
  next prisonId hres =>
    split at hok
    · cases hok
    next h0 =>
      split at hok
      · cases hok
      next prison hfind =>
        split at hok
        · cases hok
        next hcap =>
          split at hok
          · cases hok
          next hdup =>
            injection hok with h
            subst h
            intro pr hpr
            rw [activeCount_set_prisoners, List.countP_append]
            by_cases hpf : pr.prison_id = prisonId
            · have hpr_eq : pr = prison := find?_key_unique hwf.1 hfind hpr hpf
              subst hpr_eq
              have hlt : (activeCount db prisonId : Int) < pr.capacity :=
                lt_of_not_ge hcap
              rw [activeCount_def] at hlt
              simp only [List.countP_cons, List.countP_nil]
              rw [hpf]
              simp only [List.countP_nil, beq_self_eq_true, Bool.and_self,
                if_true]
              push_cast
              omega
            · have hb := hinv pr hpr
              rw [activeCount_def] at hb
              simp only [List.countP_cons, List.countP_nil]
              have hne : ((prisonId == pr.prison_id)
                  && (PrisonerStatus.active == PrisonerStatus.active)) = false := by
                simp only [Bool.and_eq_false_iff]
                left
                simp [Ne.symm hpf]
              rw [hne]
              push_cast
              omega

theorem transferPrisoner_preserves_capacity
    {db db' : DB} {pid target : Nat} {upid : Option Nat} {role : Role}
    (hwf : WF db) (hinv : CapacityInv db)
    (hok : transferPrisoner db pid target upid role = Except.ok db') :
    CapacityInv db' := by
  unfold transferPrisoner at hok
  split at hok
  · cases hok
  · split at hok
    · cases hok
    next prisoner hfindp =>
      split at hok
      · cases hok
      · split at hok
        · cases hok
        next targetPrison hfindt =>
          split at hok
          · cases hok
          next hcap =>
            injection hok with h
            subst h
            intro pr hpr
            rw [activeCount_set_prisoners]
            by_cases hpt : pr.prison_id = target
            · have hpr_eq : pr = targetPrison :=
                find?_key_unique hwf.1 hfindt hpr hpt
              subst hpr_eq
              rw [hpt]
              have h1 := countP_updateWhere_le_add db.prisoners
                (fun p => p.prisoner_id == pid)
                (fun p => { p with prison_id := target,
                                   status := PrisonerStatus.active })
                (fun p => p.prison_id == target
                  && p.status == PrisonerStatus.active)
              have h2 := countP_beq_le_one (f := Prisoner.prisoner_id) hwf.2 pid
              have hlt : (activeCount db target : Int) < pr.capacity :=
                lt_of_not_ge hcap
              rw [activeCount_def] at hlt
              omega
            · have hb := hinv pr hpr
              rw [activeCount_def] at hb
              have h1 := countP_updateWhere_le db.prisoners
                (fun p => p.prisoner_id == pid)
                (fun p => { p with prison_id := target,
                                   status := PrisonerStatus.active })
                (fun p => p.prison_id == pr.prison_id
                  && p.status == PrisonerStatus.active)
                (by intro a _ _
                    simp only [Bool.and_eq_false_iff]
                    left
                    simp [Ne.symm hpt])
              omega

theorem releasePrisoner_preserves_capacity
    {db db' : DB} {pid : Nat} {upid : Option Nat} {role : Role} {now : Int}
    (hinv : CapacityInv db)
    (hok : releasePrisoner db pid upid role now = Except.ok db') :
    CapacityInv db' := by
  unfold releasePrisoner at hok
  split at hok
  · cases hok
  · split at hok
    · cases hok
    next prisoner hfindp =>
      split at hok
      · cases hok
      · split at hok
        · cases hok
        next hrel =>
          injection hok with h
          subst h
          intro pr hpr
          rw [activeCount_set_prisoners]
          have hb := hinv pr hpr
          rw [activeCount_def] at hb
          have h1 := countP_updateWhere_le db.prisoners
            (fun p => p.prisoner_id == pid)
            (fun p => { p with status := PrisonerStatus.released,
                               actual_release_date := some now })
            (fun p => p.prison_id == pr.prison_id
              && p.status == PrisonerStatus.active)
            (by intro a _ _
                simp only [Bool.and_eq_false_iff]
                right
                simp)
          omega

theorem deletePrisoner_preserves_capacity
    {db db' : DB} {pid : Nat} {reason : String} {upid : Option Nat}
    {role : Role} {now : Int}
    (hinv : CapacityInv db)
    (hok : deletePrisoner db pid reason upid role now = Except.ok db') :
    CapacityInv db' := by
  unfold deletePrisoner at hok
  split at hok
  · cases hok
  · split at hok
    · cases hok
    next prisoner hfindp =>
      split at hok
      · cases hok
      · injection hok with h
        subst h
        intro pr hpr
        rw [activeCount_set_prisoners]
        have hb := hinv pr hpr
        rw [activeCount_def] at hb
        have h1 := countP_updateWhere_le db.prisoners
          (fun p => p.prisoner_id == pid)
          (fun p => { p with
            status := if reason == "deceased" then PrisonerStatus.deceased
                      else PrisonerStatus.released,
            actual_release_date := some now })
          (fun p => p.prison_id == pr.prison_id
            && p.status == PrisonerStatus.active)
          (by intro a _ _
              simp only [Bool.and_eq_false_iff]
              right
              by_cases hr : (reason == "deceased") = true <;> simp [hr])
        omega

theorem updatePrison_preserves_capacity
    {db db' : DB} {prisonId : Nat} {updateData : PrisonUpdateData} {role : Role}
    (hinv : CapacityInv db)
    (hok : updatePrison db prisonId updateData role = Except.ok db') :
    CapacityInv db' := by
  unfold updatePrison at hok
  split at hok
  · cases hok
  · split at hok
    · cases hok
    next prison hfind =>
      split at hok
      · cases hok
      next hname =>
        split at hok
        next newCapacity hcapEq =>
          split at hok
          · cases hok
          next hneg =>
            split at hok
            · cases hok
            next hocc =>
              injection hok with h
              subst h
              intro pr hpr
              unfold updateWhere at hpr
              rw [List.mem_map] at hpr
              obtain ⟨a, ha, haeq⟩ := hpr
              rw [activeCount_set_prisons]
              by_cases hca : (a.prison_id == prisonId) = true
              · rw [if_pos hca] at haeq
                subst haeq
                have hid : a.prison_id = prisonId := by simpa using hca
                dsimp only
                rw [hid]
                omega
              · rw [if_neg hca] at haeq
                subst haeq
                exact hinv a ha
        next hcapNone =>
          injection hok with h
          subst h
          intro pr hpr
          unfold updateWhere at hpr
          rw [List.mem_map] at hpr
          obtain ⟨a, ha, haeq⟩ := hpr
          rw [activeCount_set_prisons]
          by_cases hca : (a.prison_id == prisonId) = true
          · rw [if_pos hca] at haeq
            subst haeq
            dsimp only
            exact hinv a ha
          · rw [if_neg hca] at haeq
            subst haeq
            exact hinv a ha

/-! ## Claim theorems -/

/-- C1: For every facility F, the count of prisoners with status=Active and
facility=F never exceeds F.capacity after any committed operation: an
admission (`registerPrisoner`) or transfer (`transferPrisoner`) into a
facility whose active count already equals its capacity fails with a capacity
error and writes nothing, and a facility update (`updatePrison`) that would
set capacity below the current active count is rejected. -/
theorem c1_capacity_invariant :
    (∀ (op : PrisonerOp) (db db' : DB), WF db → CapacityInv db →
        applyPrisonerOp op db = Except.ok db' → CapacityInv db')
    ∧ (∀ (db : DB) (data : RegisterData) (upid : Option Nat) (role : Role)
        (now : Int) (newId pid : Nat) (prison : Prison),
        resolvePrisonId data.prison_id upid role = some pid → pid ≠ 0 →
        findPrison db pid = some prison →
        (activeCount db pid : Int) ≥ prison.capacity →
        registerPrisoner db data upid role now newId
          = Except.error Err.capacityExceeded)
    ∧ (∀ (db : DB) (prisonerId target : Nat) (upid : Option Nat) (role : Role)
        (prisoner : Prisoner) (targetPrison : Prison),
        (role == Role.prisonAdmin || role == Role.superAdmin) = true →
        findPrisoner db prisonerId = some prisoner →
        checkPrisonAccess upid prisoner.prison_id role = true →
        findPrison db target = some targetPrison →
        (activeCount db target : Int) ≥ targetPrison.capacity →
        transferPrisoner db prisonerId target upid role
          = Except.error Err.capacityExceeded)
    ∧ (∀ (db : DB) (prisonId : Nat) (updateData : PrisonUpdateData) (c : Int)
        (prison : Prison),
        updateData.prison_name = none →
        updateData.capacity = some c →
        findPrison db prisonId = some prison →
        0 ≤ c → c < (activeCount db prisonId : Int) →
        updatePrison db prisonId updateData Role.superAdmin
          = Except.error Err.capacityBelowOccupancy) := by
  refine ⟨?_, ?_, ?_, ?_⟩
  · intro op db db' hwf hinv hok
    cases op with
    | register data upid role now newId =>
      exact registerPrisoner_preserves_capacity hwf hinv hok
    | transfer pid target upid role =>
      exact transferPrisoner_preserves_capacity hwf hinv hok
    | release pid upid role now =>
      exact releasePrisoner_preserves_capacity hinv hok
    | remove pid reason upid role now =>
      exact deletePrisoner_preserves_capacity hinv hok
    | prisonUpdate prisonId upd role =>
      exact updatePrison_preserves_capacity hinv hok
  · intro db data upid role now newId pid prison hres h0 hfind hge
    unfold registerPrisoner
    rw [hres]
    simp [h0, hfind, hge]
  · intro db prisonerId target upid role prisoner targetPrison hrole hfindp
      hacc hfindt hge
    unfold transferPrisoner
    simp [hrole, hfindp, hacc, hfindt, hge]
  · intro db prisonId updateData c prison hpn hcap hfind hc0 hlt
    unfold updatePrison
    simp [hpn, hcap, hfind, strTruthy, not_lt.mpr hc0, hlt]

/-- C1 witness: a concrete admission preserving the invariant, and concrete
capacity rejections of admission, transfer, and a capacity reduction. -/
theorem c1_capacity_invariant_witness :
    (WF c1db ∧ CapacityInv c1db
      ∧ applyPrisonerOp c1op c1db = Except.ok c1db1 ∧ CapacityInv c1db1)
    ∧ registerPrisoner c1full ⟨"P Three", "N3", "C3", some 1, none, none⟩
        (some 1) Role.superAdmin 5 3 = Except.error Err.capacityExceeded
    ∧ transferPrisoner c1full 2 1 (some 2) Role.prisonAdmin
        = Except.error Err.capacityExceeded
    ∧ updatePrison c1full 1 ⟨none, some 0⟩ Role.superAdmin
        = Except.error Err.capacityBelowOccupancy := by
  refine ⟨⟨by decide, by decide, by rfl, ?_⟩, ?_, ?_, ?_⟩
  · exact c1_capacity_invariant.1 c1op c1db c1db1 (by decide) (by decide) (by rfl)
  · exact c1_capacity_invariant.2.1 c1full ⟨"P Three", "N3", "C3", some 1, none, none⟩
      (some 1) Role.superAdmin 5 3 1 ⟨1, "Alpha", 1, true⟩ (by rfl) (by decide)
      (by rfl) (by decide)
  · exact c1_capacity_invariant.2.2.1 c1full 2 1 (some 2) Role.prisonAdmin
      ⟨2, "P Two", "N2", "C2", PrisonerStatus.active, 2, 0, none, none⟩
      ⟨1, "Alpha", 1, true⟩ (by rfl) (by rfl) (by rfl) (by rfl) (by decide)
  · exact c1_capacity_invariant.2.2.2 c1full 1 ⟨none, some 0⟩ 0
      ⟨1, "Alpha", 1, true⟩ (by rfl) (by rfl) (by rfl) (by decide) (by decide)

/-- C2 counterexample: `transferPrisoner` succeeds on a Released prisoner —
and sets the status to Active — where the claim requires a typed failure
leaving the person unchanged. -/
theorem c2_counterexample :
    (findPrisoner c2db 1).map Prisoner.status = some PrisonerStatus.released
    ∧ transferPrisoner c2db 1 2 none Role.superAdmin = Except.ok c2db1
    ∧ (findPrisoner c2db1 1).map Prisoner.status = some PrisonerStatus.active
    ∧ (findPrisoner c2db1 1).map Prisoner.prison_id = some 2 :=
  ⟨rfl, rfl, rfl, rfl⟩

/-- C2 amended: `transferPrisoner` has no precondition on the person's
status: it succeeds exactly when the caller's role and access checks pass,
the person and target prison resolve, and the target has spare capacity —
whatever the current status (Active, Released, Transferred or Deceased) —
and on success it sets the person's facility to the target and the status
to Active. -/
theorem c2_transfer_no_status_precondition :
    (∀ (db : DB) (prisonerId targetPrisonId : Nat) (upid : Option Nat)
        (role : Role),
        (∃ db', transferPrisoner db prisonerId targetPrisonId upid role
            = Except.ok db') ↔
          ((role = Role.prisonAdmin ∨ role = Role.superAdmin)
            ∧ ∃ prisoner, findPrisoner db prisonerId = some prisoner
              ∧ checkPrisonAccess upid prisoner.prison_id role = true
              ∧ ∃ targetPrison,
                  findPrison db targetPrisonId = some targetPrison
                  ∧ (activeCount db targetPrisonId : Int) < targetPrison.capacity))
    ∧ (∀ (db db' : DB) (prisonerId targetPrisonId : Nat) (upid : Option Nat)
        (role : Role) (prisoner : Prisoner),
        transferPrisoner db prisonerId targetPrisonId upid role = Except.ok db' →
        findPrisoner db prisonerId = some prisoner →
        findPrisoner db' prisonerId
          = some { prisoner with prison_id := targetPrisonId,
                                 status := PrisonerStatus.active }) := by
  constructor
  · intro db prisonerId targetPrisonId upid role
    constructor
    · rintro ⟨db', hok⟩
      unfold transferPrisoner at hok
      split at hok
      · cases hok
      next hrole =>
        split at hok
        · cases hok
        next prisoner hfindp =>
          split at hok
          · cases hok
          next hacc =>
            split at hok
            · cases hok
            next targetPrison hfindt =>
              split at hok
              · cases hok
              next hcap =>
                refine ⟨?_, prisoner, hfindp, ?_, targetPrison, hfindt, ?_⟩
                · rcases not_not.mp hrole with h
                  simpa using h
                · exact not_not.mp hacc
                · exact lt_of_not_ge hcap
    · rintro ⟨hrole, prisoner, hfindp, hacc, targetPrison, hfindt, hlt⟩
      unfold transferPrisoner
      have hroleb : (role == Role.prisonAdmin || role == Role.superAdmin)
          = true := by
        rcases hrole with h | h <;> subst h <;> rfl
      rw [hfindp]
      simp [hroleb, hacc, hfindt, not_le.mpr hlt]
  · intro db db' prisonerId targetPrisonId upid role prisoner hok hfindp
    unfold transferPrisoner at hok
    split at hok
    · cases hok
    next hrole =>
      split at hok
      · cases hok
      next prisoner2 hfindp2 =>
        split at hok
        · cases hok
        next hacc =>
          split at hok
          · cases hok
          next targetPrison hfindt =>
            split at hok
            · cases hok
            next hcap =>
              injection hok with h
              subst h
              have hpp : prisoner2 = prisoner := by
                rw [hfindp] at hfindp2
                exact (Option.some.inj hfindp2).symm
              subst hpp
              exact find?_updateWhere_self (fun a => rfl) hfindp

/-- C2 witness: the amended statement evaluated on the Released prisoner of
`c2db`: the transfer commits and re-lookup shows facility 2 and status
Active. -/
theorem c2_transfer_witness :
    transferPrisoner c2db 1 2 none Role.superAdmin = Except.ok c2db1
    ∧ findPrisoner c2db1 1
        = some ⟨1, "P One", "N1", "C1", PrisonerStatus.active, 2, 0, none,
                some 3⟩ := by
  refine ⟨by rfl, ?_⟩
  exact c2_transfer_no_status_precondition.2 c2db c2db1 1 2 none Role.superAdmin
    ⟨1, "P One", "N1", "C1", PrisonerStatus.released, 1, 0, none, some 3⟩
    (by rfl) (by rfl)

/-- C3 counterexample: `releasePrisoner` succeeds on a Deceased prisoner —
moving the status to Released and overwriting the already-set
`actual_release_date` — where the claim requires a typed failure leaving
status and date unchanged. -/
theorem c3_counterexample :
    (findPrisoner c3db 1).map Prisoner.status = some PrisonerStatus.deceased
    ∧ (findPrisoner c3db 1).map Prisoner.actual_release_date = some (some 7)
    ∧ releasePrisoner c3db 1 none Role.superAdmin 42 = Except.ok c3db1
    ∧ (findPrisoner c3db1 1).map Prisoner.status = some PrisonerStatus.released
    ∧ (findPrisoner c3db1 1).map Prisoner.actual_release_date
        = some (some 42) :=
  ⟨rfl, rfl, rfl, rfl, rfl⟩

/-- C3 amended: `releasePrisoner` rejects only an already-Released person
(typed error); for any other current status — Active, Transferred or
Deceased — it succeeds, setting status=Released and actualReleaseDate=now
(overwriting an earlier value); `deletePrisoner` has no status precondition
at all: for any current status it succeeds and sets the status from the
reason ('deceased' ↦ Deceased, otherwise Released) and
actualReleaseDate=now. -/
theorem c3_release_decease_amended :
    (∀ (db : DB) (prisonerId : Nat) (upid : Option Nat) (role : Role)
        (now : Int) (prisoner : Prisoner),
        (role == Role.prisonAdmin || role == Role.superAdmin) = true →
        findPrisoner db prisonerId = some prisoner →
        checkPrisonAccess upid prisoner.prison_id role = true →
        ((prisoner.status = PrisonerStatus.released →
            releasePrisoner db prisonerId upid role now
              = Except.error Err.alreadyReleased)
          ∧ (prisoner.status ≠ PrisonerStatus.released →
              ∃ db', releasePrisoner db prisonerId upid role now
                  = Except.ok db'
                ∧ findPrisoner db' prisonerId
                    = some { prisoner with
                        status := PrisonerStatus.released,
                        actual_release_date := some now })))
    ∧ (∀ (db : DB) (prisonerId : Nat) (reason : String) (upid : Option Nat)
        (role : Role) (now : Int) (prisoner : Prisoner),
        (role == Role.prisonAdmin || role == Role.superAdmin) = true →
        findPrisoner db prisonerId = some prisoner →
        checkPrisonAccess upid prisoner.prison_id role = true →
        ∃ db', deletePrisoner db prisonerId reason upid role now = Except.ok db'
          ∧ findPrisoner db' prisonerId
              = some { prisoner with
                  status := if reason == "deceased" then PrisonerStatus.deceased
                            else PrisonerStatus.released,
                  actual_release_date := some now }) := by
  constructor
  · intro db prisonerId upid role now prisoner hrole hfindp hacc
    constructor
    · intro hst
      unfold releasePrisoner
      rw [hfindp]
      simp [hrole, hacc, hst]
    · intro hst
      unfold releasePrisoner
      rw [hfindp]
      have hstb : (prisoner.status == PrisonerStatus.released) = false := by
        simpa using hst
      simp only [hrole, hacc, hstb]
      simp only [Bool.true_eq_false, not_true_eq_false, if_false,
        Bool.false_eq_true, if_neg, not_false_iff]
      refine ⟨_, rfl, ?_⟩
      exact find?_updateWhere_self (fun a => rfl) hfindp
  · intro db prisonerId reason upid role now prisoner hrole hfindp hacc
    unfold deletePrisoner
    rw [hfindp]
    simp only [hrole, hacc]
    simp only [Bool.true_eq_false, not_true_eq_false, if_false,
      Bool.false_eq_true, if_neg, not_false_iff]
    refine ⟨_, rfl, ?_⟩
    exact find?_updateWhere_self (fun a => rfl) hfindp

/-- C3 witness: the amended statement evaluated on the Deceased prisoner of
`c3db`: release resurrects the record to Released with date 42, and a
'deceased' delete succeeds again, re-stamping the date. -/
theorem c3_release_decease_witness :
    releasePrisoner c3db 1 none Role.superAdmin 42 = Except.ok c3db1
    ∧ findPrisoner c3db1 1
        = some ⟨1, "P One", "N1", "C1", PrisonerStatus.released, 1, 0, none,
                some 42⟩
    ∧ deletePrisoner c3db 1 "deceased" none Role.superAdmin 42
        = Except.ok c3db2
    ∧ findPrisoner c3db2 1
        = some ⟨1, "P One", "N1", "C1", PrisonerStatus.deceased, 1, 0, none,
                some 42⟩ := by
  refine ⟨by rfl, ?_, by rfl, ?_⟩
  · obtain ⟨db', hok, hfind⟩ :=
      ((c3_release_decease_amended.1 c3db 1 none Role.superAdmin 42
        ⟨1, "P One", "N1", "C1", PrisonerStatus.deceased, 1, 0, none, some 7⟩
        (by rfl) (by rfl) (by rfl)).2 (by decide))
    have h1 : releasePrisoner c3db 1 none Role.superAdmin 42
        = Except.ok c3db1 := by rfl
    rw [hok] at h1
    rw [Except.ok.inj h1] at hfind
    exact hfind
  · obtain ⟨db', hok, hfind⟩ :=
      (c3_release_decease_amended.2 c3db 1 "deceased" none Role.superAdmin 42
        ⟨1, "P One", "N1", "C1", PrisonerStatus.deceased, 1, 0, none, some 7⟩
        (by rfl) (by rfl) (by rfl))
    have h1 : deletePrisoner c3db 1 "deceased" none Role.superAdmin 42
        = Except.ok c3db2 := by rfl
    rw [hok] at h1
    rw [Except.ok.inj h1] at hfind
    exact hfind

/-- C4: approving a Pending behaviour record with nonzero adjustment days
marks it Approved with approvedAt set and shifts the owner's
expectedReleaseDate by exactly the adjustment days (in particular
2025-06-01 − 10 days = 2025-05-22); a null expectedReleaseDate skips the
date update without error while the record still becomes Approved. -/
theorem c4_approve_applies_adjustment :
    (∀ (db : DB) (behaviourRecordId : Nat) (notes : Option String)
        (upid : Option Nat) (role : Role) (now : Int)
        (br : BehaviourRecord) (prisoner : Prisoner),
        findBehaviourRecord db behaviourRecordId = some br →
        findPrisoner db br.prisoner_id = some prisoner →
        checkPrisonAccess upid prisoner.prison_id role = true →
        br.adjustment_status = AdjStatus.pending →
        br.sentence_adjustment_days ≠ 0 →
        ∃ db',
          approveSentenceAdjustment db behaviourRecordId notes upid role now
            = Except.ok db'
          ∧ findBehaviourRecord db' behaviourRecordId
              = some { br with
                  adjustment_status := AdjStatus.approved
                  adjustment_approved_at := some now
                  notes := if strTruthy notes then notes else br.notes }
          ∧ findPrisoner db' br.prisoner_id
              = some { prisoner with
                  expected_release_date := prisoner.expected_release_date.map
                    (fun d => d.addDays br.sentence_adjustment_days) }
          ∧ (prisoner.expected_release_date = none →
              db'.prisoners = db.prisoners))
    ∧ CivilDate.addDays ⟨2025, 6, 1⟩ (-10) = ⟨2025, 5, 22⟩ := by
  constructor
  · intro db behaviourRecordId notes upid role now br prisoner hfindbr hfindp
      hacc hpend hdays
    have hpid : prisoner.prisoner_id = br.prisoner_id := by
      simpa using List.find?_some hfindp
    have hpendb : (br.adjustment_status == AdjStatus.pending) = true := by
      simp [hpend]
    have hdaysb : (br.sentence_adjustment_days == 0) = false := by
      simpa using hdays
    unfold approveSentenceAdjustment
    rw [hfindbr]
    simp only [hfindp, hacc, hpendb, hdaysb]
    simp only [Bool.true_eq_false, not_true_eq_false, if_false,
      Bool.false_eq_true, if_neg, not_false_iff]
    cases hexp : prisoner.expected_release_date with
    | none =>
      simp only [hexp, Option.map_none']
      refine ⟨_, rfl, ?_, ?_, fun _ => rfl⟩
      · exact find?_updateWhere_self (fun a => rfl) hfindbr
      · conv_rhs => rw [← hexp]
        exact hfindp
    | some currentEndDate =>
      simp only [hexp, Option.map_some']
      refine ⟨_, rfl, ?_, ?_, fun h => Option.noConfusion h⟩
      · exact find?_updateWhere_self (fun a => rfl) hfindbr
      · rw [← hpid] at hfindp ⊢
        exact find?_updateWhere_self (fun a => rfl) hfindp
  · decide

/-- C4 witness: the specification scenario on `c4db`: record 1 (Pending,
−10 days) is approved at now = 7; re-lookup shows the record Approved with
approvedAt = 7 and the prisoner's expected release date moved from
2025-06-01 to 2025-05-22. -/
theorem c4_approve_witness :
    approveSentenceAdjustment c4db 1 none none Role.superAdmin 7
      = Except.ok c4db1
    ∧ findBehaviourRecord c4db1 1
        = some ⟨1, 1, -10, AdjStatus.approved, some 7, none, 9⟩
    ∧ findPrisoner c4db1 1
        = some ⟨1, "P One", "N1", "C1", PrisonerStatus.active, 1, 0,
                some ⟨2025, 5, 22⟩, none⟩
    ∧ CivilDate.addDays ⟨2025, 6, 1⟩ (-10) = ⟨2025, 5, 22⟩ := by
  obtain ⟨db', hok, hbr, hp, _⟩ :=
    c4_approve_applies_adjustment.1 c4db 1 none none Role.superAdmin 7
      ⟨1, 1, -10, AdjStatus.pending, none, none, 9⟩
      ⟨1, "P One", "N1", "C1", PrisonerStatus.active, 1, 0, some ⟨2025, 6, 1⟩,
       none⟩
      (by rfl) (by rfl) (by rfl) (by rfl) (by decide)
  have h1 : approveSentenceAdjustment c4db 1 none none Role.superAdmin 7
      = Except.ok c4db1 := by rfl
  rw [hok] at h1
  rw [Except.ok.inj h1] at hbr hp
  exact ⟨by rfl, hbr, by exact_mod_cast hp, c4_approve_applies_adjustment.2⟩

/-- `updateBehaviourRecord` can never commit: once the record is found, the
access check dereferences the absent nested prison include and raises a
`TypeError`. -/
theorem updateBehaviourRecord_never_ok (db : DB) (behaviourRecordId : Nat)
    (updateData : BehaviourUpdateData) (upid : Option Nat) (role : Role)
    (db' : DB) :
    updateBehaviourRecord db behaviourRecordId updateData upid role
      ≠ Except.ok db' := by
  intro hok
  unfold updateBehaviourRecord at hok
  split at hok
  · cases hok
  next br hfind =>
    split at hok
    · cases hok
    next prisonerRow hfindp =>
      split at hok
      next e heq => cases hok
      next acc heq =>
        simp [readPrisonIdOfIncludedPrison] at heq

/-- `rejectSentenceAdjustment` can never commit, for the same reason as
`updateBehaviourRecord_never_ok`. -/
theorem rejectSentenceAdjustment_never_ok (db : DB) (behaviourRecordId : Nat)
    (reason : Option String) (upid : Option Nat) (role : Role) (db' : DB) :
    rejectSentenceAdjustment db behaviourRecordId reason upid role
      ≠ Except.ok db' := by
  intro hok
  unfold rejectSentenceAdjustment at hok
  split at hok
  · cases hok
  next br hfind =>
    split at hok
    · cases hok
    next prisonerRow hfindp =>
      split at hok
      next e heq => cases hok
      next acc heq =>
        simp [readPrisonIdOfIncludedPrison] at heq

/-- C5: on a record that is not Pending, `approveSentenceAdjustment` fails
with its typed error and, approving the same record twice, the second call
fails too (delta applied once); but `rejectSentenceAdjustment` and
`updateBehaviourRecord` fail with a `TypeError` — the access check reads
`prisoner.prison.prison_id` off an include that never loads the nested
prison — not with the typed invalid-transition error the claim requires. -/
theorem c5_reject_update_crash :
    (findBehaviourRecord c5db 1).map BehaviourRecord.adjustment_status
      = some AdjStatus.approved
    ∧ rejectSentenceAdjustment c5db 1 (some "dup") none Role.superAdmin
        = Except.error Err.typeError
    ∧ updateBehaviourRecord c5db 1 ⟨some 4, none⟩ none Role.superAdmin
        = Except.error Err.typeError
    ∧ approveSentenceAdjustment c5db 1 none none Role.superAdmin 9
        = Except.error Err.noPendingAdjustment
    ∧ approveSentenceAdjustment c4db1 1 none none Role.superAdmin 8
        = Except.error Err.noPendingAdjustment :=
  ⟨rfl, rfl, rfl, rfl, rfl⟩

/-- C6: across create/update/delete/approve/reject, a behaviour record
present before and after a committed operation either keeps its
adjustmentStatus or moves Pending→Approved; no committed operation moves a
record out of Approved or Rejected (update and reject, the only code paths
that could, never commit — they fail on the broken include). -/
theorem c6_adjustment_status_transitions :
    ∀ (op : BehaviourOp) (db db' : DB) (id : Nat) (br br' : BehaviourRecord),
      (db.behaviourRecords.map BehaviourRecord.behaviour_id).Nodup →
      applyBehaviourOp op db = Except.ok db' →
      findBehaviourRecord db id = some br →
      findBehaviourRecord db' id = some br' →
      br'.adjustment_status = br.adjustment_status
        ∨ (br.adjustment_status = AdjStatus.pending
            ∧ br'.adjustment_status = AdjStatus.approved) := by
  intro op db db' id br br' hnd hok h1 h2
  cases op with
  | create bd u upid role newId =>
    simp only [applyBehaviourOp] at hok
    unfold createBehaviourRecord at hok
    split at hok
    · cases hok
    next prisoner hfindp =>
      split at hok
      · cases hok
      · split at hok
        · cases hok
        · injection hok with h
          subst h
          unfold findBehaviourRecord at h1 h2
          dsimp only at h2
          rw [List.find?_append, h1] at h2
          have h3 : some br = some br' := h2
          left
          rw [Option.some.inj h3]
  | update behaviourRecordId updateData upid role =>
    exact absurd hok
      (updateBehaviourRecord_never_ok db behaviourRecordId updateData upid
        role db')
  | reject behaviourRecordId reason upid role =>
    exact absurd hok
      (rejectSentenceAdjustment_never_ok db behaviourRecordId reason upid
        role db')
  | delete behaviourRecordId upid role =>
    simp only [applyBehaviourOp] at hok
    unfold deleteBehaviourRecord at hok
    split at hok
    · cases hok
    next br2 hfind2 =>
      split at hok
      · cases hok
      next prisoner hfindp =>
        split at hok
        · cases hok
        · split at hok
          · cases hok
          · injection hok with h
            subst h
            unfold findBehaviourRecord at h1 h2
            dsimp only at h2
            have hmem : br' ∈ db.behaviourRecords :=
              (List.mem_filter.mp (List.mem_of_find?_eq_some h2)).1
            have hkey : br'.behaviour_id = id := by
              simpa using List.find?_some h2
            left
            rw [find?_key_unique hnd h1 hmem hkey]
  | approve behaviourRecordId notes upid role now =>
    simp only [applyBehaviourOp] at hok
    unfold approveSentenceAdjustment at hok
    split at hok
    · cases hok
    next br2 hfind2 =>
      split at hok
      · cases hok
      next prisoner hfindp =>
        split at hok
        · cases hok
        · split at hok
          · cases hok
          next hpend =>
            split at hok
            · cases hok
            next hdays =>
              injection hok with h
              subst h
              unfold findBehaviourRecord at h1 h2
              dsimp only at h2
              have hmem := List.mem_of_find?_eq_some h2
              have hkey : br'.behaviour_id = id := by
                simpa using List.find?_some h2
              unfold updateWhere at hmem
              rw [List.mem_map] at hmem
              obtain ⟨b, hb, hbeq⟩ := hmem
              by_cases hcb : (b.behaviour_id == behaviourRecordId) = true
              · rw [if_pos hcb] at hbeq
                subst hbeq
                have hbid : b.behaviour_id = id := hkey
                have hbbr : b = br := find?_key_unique hnd h1 hb hbid
                subst hbbr
                have hbid2 : b.behaviour_id = behaviourRecordId := by
                  simpa using hcb
                have hbr2 : b = br2 := find?_key_unique hnd hfind2 hb hbid2
                have hpend2 : b.adjustment_status = AdjStatus.pending := by
                  have := not_not.mp hpend
                  rw [hbr2]
                  simpa using this
                right
                exact ⟨hpend2, rfl⟩
              · rw [if_neg hcb] at hbeq
                subst hbeq
                left
                rw [find?_key_unique hnd h1 hb hkey]

/-- C6 witness: the only committed status move, Pending→Approved, exercised
by approving `c6db`'s record. -/
theorem c6_transitions_witness :
    (c6db.behaviourRecords.map BehaviourRecord.behaviour_id).Nodup
    ∧ applyBehaviourOp c6op c6db = Except.ok c6db1
    ∧ findBehaviourRecord c6db 1
        = some ⟨1, 1, 5, AdjStatus.pending, none, none, 9⟩
    ∧ findBehaviourRecord c6db1 1
        = some ⟨1, 1, 5, AdjStatus.approved, some 11, none, 9⟩
    ∧ ((⟨1, 1, 5, AdjStatus.approved, some 11, none, 9⟩ :
          BehaviourRecord).adjustment_status
        = (⟨1, 1, 5, AdjStatus.pending, none, none, 9⟩ :
          BehaviourRecord).adjustment_status
      ∨ ((⟨1, 1, 5, AdjStatus.pending, none, none, 9⟩ :
            BehaviourRecord).adjustment_status = AdjStatus.pending
          ∧ (⟨1, 1, 5, AdjStatus.approved, some 11, none, 9⟩ :
            BehaviourRecord).adjustment_status = AdjStatus.approved)) := by
  refine ⟨by decide, by rfl, by rfl, by rfl, ?_⟩
  exact c6_adjustment_status_transitions c6op c6db c6db1 1 _ _ (by decide)
    (by rfl) (by rfl) (by rfl)

/-- A closed overlap implies the three-disjunct `Op.between` condition,
with no well-formedness assumption. -/
theorem overlapCond_of_closed {a b c d : Nat} (h1 : a ≤ d) (h2 : c ≤ b) :
    overlapCond a b c d = true := by
  unfold overlapCond
  simp only [Bool.or_eq_true, Bool.and_eq_true, decide_eq_true_eq]
  omega

/-- A half-open overlap of an existing window `[a, b)` with a requested
window `[c, d)` implies the `Op.between` condition. -/
theorem overlapCond_of_halfOpen {a b c d : Nat} (h1 : a < d) (h2 : c < b) :
    overlapCond a b c d = true :=
  overlapCond_of_closed (le_of_lt h1) (le_of_lt h2)

theorem scheduleVisit_preserves_noOverlap {db db' : DB} {visitData : VisitData}
    {userId : Nat} {upid : Option Nat} {role : Role} {newId retId : Nat}
    (hinv : NoVisitOverlap db)
    (hok : scheduleVisit db visitData userId upid role newId
      = Except.ok (db', retId)) :
    NoVisitOverlap db' := by
  unfold scheduleVisit at hok
  split at hok
  · cases hok
  next prisoner hfindp =>
    split at hok
    · cases hok
    · split at hok
      · cases hok
      · split at hok
        · cases hok
        next visitor hfindv =>
          split at hok
          · cases hok
          next hconf =>
            injection hok with h
            injection h with h1 h2
            subst h1
            have hnone := Option.not_isSome_iff_eq_none.mp hconf
            have hprobe := List.find?_eq_none.mp hnone
            intro v hv w hw hne hpid hdate hvs hws
            dsimp only at hv hw
            rw [List.mem_append, List.mem_singleton] at hv hw
            rcases hv with hv | hv <;> rcases hw with hw | hw
            · exact hinv v hv w hw hne hpid hdate hvs hws
            · subst hw
              intro hov
              apply hprobe v hv
              simp only [Bool.and_eq_true, beq_iff_eq, decide_eq_true_eq]
              exact ⟨⟨⟨⟨trivial, hpid⟩, hdate⟩, by simp [hvs]⟩,
                overlapCond_of_halfOpen hov.1 hov.2⟩
            · subst hv
              intro hov
              apply hprobe w hw
              simp only [Bool.and_eq_true, beq_iff_eq, decide_eq_true_eq]
              exact ⟨⟨⟨⟨trivial, hpid.symm⟩, hdate.symm⟩, by simp [hws]⟩,
                overlapCond_of_halfOpen hov.2 hov.1⟩
            · subst hv
              subst hw
              exact absurd rfl hne

theorem updateVisit_preserves_noOverlap {db db' : DB} {visitId : Nat}
    {updateData : VisitUpdateData} {upid : Option Nat} {role : Role}
    (hnd : (db.visits.map Visit.visit_id).Nodup)
    (hinv : NoVisitOverlap db)
    (hok : updateVisit db visitId updateData upid role = Except.ok db') :
    NoVisitOverlap db' := by
  unfold updateVisit at hok
  split at hok
  · cases hok
  next visit hfindv =>
    split at hok
    · cases hok
    next prisoner hfindp =>
      split at hok
      · cases hok
      · split at hok
        · cases hok
        next hstat =>
          split at hok
          · cases hok
          next hcond =>
            injection hok with h
            subst h
            have hsch : visit.status = VisitStatus.scheduled := by
              have := not_not.mp hstat
              simpa using this
            have hvmem : visit ∈ db.visits := List.mem_of_find?_eq_some hfindv
            have hcond' : (updateData.visit_date.isSome
                  || updateData.visit_time_start.isSome
                  || updateData.visit_time_end.isSome) = false
                ∨ (findConflictingVisit db.visits (some visitId)
                    visit.prisoner_id
                    (updateData.visit_date.getD visit.visit_date)
                    (updateData.visit_time_start.getD visit.visit_time_start)
                    (updateData.visit_time_end.getD visit.visit_time_end)
                    ).isSome = false := by
              have hcf : ((updateData.visit_date.isSome
                  || updateData.visit_time_start.isSome
                  || updateData.visit_time_end.isSome)
                  && (findConflictingVisit db.visits (some visitId)
                      visit.prisoner_id
                      (updateData.visit_date.getD visit.visit_date)
                      (updateData.visit_time_start.getD visit.visit_time_start)
                      (updateData.visit_time_end.getD visit.visit_time_end)
                      ).isSome) = false := by
                rcases Bool.eq_false_or_eq_true
                    ((updateData.visit_date.isSome
                    || updateData.visit_time_start.isSome
                    || updateData.visit_time_end.isSome)
                    && (findConflictingVisit db.visits (some visitId)
                        visit.prisoner_id
                        (updateData.visit_date.getD visit.visit_date)
                        (updateData.visit_time_start.getD visit.visit_time_start)
                        (updateData.visit_time_end.getD visit.visit_time_end)
                        ).isSome) with h | h
                · exact absurd h hcond
                · exact h
              exact Bool.and_eq_false_iff.mp hcf
            intro v' hv' w' hw' hne hpid hdate hvs hws
            dsimp only at hv' hw'
            unfold updateWhere at hv' hw'
            rw [List.mem_map] at hv' hw'
            obtain ⟨v, hv, hveq⟩ := hv'
            obtain ⟨w, hw, hweq⟩ := hw'
            by_cases hcv : (v.visit_id == visitId) = true
              <;> by_cases hcw : (w.visit_id == visitId) = true
            · rw [if_pos hcv] at hveq
              rw [if_pos hcw] at hweq
              have hv2 : v = visit :=
                find?_key_unique hnd hfindv hv (by simpa using hcv)
              have hw2 : w = visit :=
                find?_key_unique hnd hfindv hw (by simpa using hcw)
              have hvw : v' = w' := by
                rw [← hveq, ← hweq, hv2, hw2]
              exact absurd (congrArg Visit.visit_id hvw) hne
            · rw [if_pos hcv] at hveq
              rw [if_neg hcw] at hweq
              have hv2 : v = visit :=
                find?_key_unique hnd hfindv hv (by simpa using hcv)
              subst hv2
              subst hveq
              subst hweq
              intro hov
              rcases hcond' with hfields | hprobe
              · simp only [Bool.or_eq_false_iff] at hfields
                obtain ⟨⟨ha, hb⟩, hc⟩ := hfields
                have hdn : updateData.visit_date = none :=
                  Option.not_isSome_iff_eq_none.mp (by simp [ha])
                have hsn : updateData.visit_time_start = none :=
                  Option.not_isSome_iff_eq_none.mp (by simp [hb])
                have hen : updateData.visit_time_end = none :=
                  Option.not_isSome_iff_eq_none.mp (by simp [hc])
                apply hinv v hvmem w hw (by simpa using hne)
                  (by simpa using hpid)
                  (by simpa [hdn] using hdate) hsch hws
                unfold halfOpenOverlap at hov ⊢
                simpa [hsn, hen] using hov
              · have hnone := isSome_false_eq_none hprobe
                have hp := List.find?_eq_none.mp hnone w hw
                apply hp
                simp only [Bool.and_eq_true, beq_iff_eq, decide_eq_true_eq,
                  bne_iff_ne]
                refine ⟨⟨⟨⟨?_, ?_⟩, ?_⟩, ?_⟩, ?_⟩
                · simpa using hcw
                · exact hpid.symm
                · exact hdate.symm
                · exact hws
                · exact overlapCond_of_halfOpen hov.2 hov.1
            · rw [if_neg hcv] at hveq
              rw [if_pos hcw] at hweq
              have hw2 : w = visit :=
                find?_key_unique hnd hfindv hw (by simpa using hcw)
              subst hw2
              subst hveq
              subst hweq
              intro hov
              rcases hcond' with hfields | hprobe
              · simp only [Bool.or_eq_false_iff] at hfields
                obtain ⟨⟨ha, hb⟩, hc⟩ := hfields
                have hdn : updateData.visit_date = none :=
                  Option.not_isSome_iff_eq_none.mp (by simp [ha])
                have hsn : updateData.visit_time_start = none :=
                  Option.not_isSome_iff_eq_none.mp (by simp [hb])
                have hen : updateData.visit_time_end = none :=
                  Option.not_isSome_iff_eq_none.mp (by simp [hc])
                apply hinv v hv w hvmem (by simpa using hne)
                  (by simpa using hpid)
                  (by simpa [hdn] using hdate) hvs hsch
                unfold halfOpenOverlap at hov ⊢
                simpa [hsn, hen] using hov
              · have hnone := isSome_false_eq_none hprobe
                have hp := List.find?_eq_none.mp hnone v hv
                apply hp
                simp only [Bool.and_eq_true, beq_iff_eq, decide_eq_true_eq,
                  bne_iff_ne]
                refine ⟨⟨⟨⟨?_, ?_⟩, ?_⟩, ?_⟩, ?_⟩
                · simpa using hcv
                · exact hpid
                · exact hdate
                · exact hvs
                · exact overlapCond_of_halfOpen hov.1 hov.2
            · rw [if_neg hcv] at hveq
              rw [if_neg hcw] at hweq
              subst hveq
              subst hweq
              exact hinv v hv w hw hne hpid hdate hvs hws

theorem deleteVisit_preserves_noOverlap {db db' : DB} {visitId : Nat}
    {upid : Option Nat} {role : Role}
    (hinv : NoVisitOverlap db)
    (hok : deleteVisit db visitId upid role = Except.ok db') :
    NoVisitOverlap db' := by
  unfold deleteVisit at hok
  split at hok
  · cases hok
  next visit hfindv =>
    split at hok
    · cases hok
    next prisoner hfindp =>
      split at hok
      · cases hok
      · split at hok
        · cases hok
        · injection hok with h
          subst h
          intro v hv w hw
          dsimp only at hv hw
          exact hinv v (List.mem_filter.mp hv).1 w (List.mem_filter.mp hw).1

/-- C7 counterexample: with a Scheduled visit 09:00–09:30, the back-to-back
request 09:30–10:00 is REJECTED as a conflict by the code (its `Op.between`
probe is inclusive), although the specification's half-open contract reports
no conflict for it; the claim's "scheduling 09:30–10:00 succeeds" is false. -/
theorem c7_counterexample :
    scheduleVisit c7db ⟨1, 1, 100, 570, 600, none⟩ 5 none Role.superAdmin 2
      = Except.error Err.visitConflict
    ∧ hasConflictSpecHalfOpen c7db.visits none 1 100 570 600 = false
    ∧ hasConflictSpecHalfOpen c7db.visits none 1 100 555 585 = true :=
  ⟨rfl, rfl, rfl⟩

/-- C7 amended: the conflict probe reports a conflict iff some other
Scheduled visit of the same person on the same date satisfies the
CLOSED-interval condition existing.timeStart ≤ requested.timeEnd AND
existing.timeEnd ≥ requested.timeStart; hence 09:15–09:45 against an
existing 09:00–09:30 is rejected, and the back-to-back window 09:30–10:00 is
ALSO rejected. -/
theorem c7_conflict_is_closed_overlap :
    (∀ (visits : List Visit) (excludeVisitId : Option Nat)
        (prisonerId visitDate timeStart timeEnd : Nat),
        (∀ v ∈ visits, v.visit_time_start ≤ v.visit_time_end) →
        timeStart ≤ timeEnd →
        ((findConflictingVisit visits excludeVisitId prisonerId visitDate
            timeStart timeEnd).isSome ↔
          ∃ v ∈ visits,
            (match excludeVisitId with
             | some ex => v.visit_id ≠ ex
             | none => True)
            ∧ v.prisoner_id = prisonerId
            ∧ v.visit_date = visitDate
            ∧ v.status = VisitStatus.scheduled
            ∧ closedOverlap v.visit_time_start v.visit_time_end timeStart
                timeEnd = true))
    ∧ scheduleVisit c7db ⟨1, 1, 100, 555, 585, none⟩ 5 none Role.superAdmin 2
        = Except.error Err.visitConflict
    ∧ scheduleVisit c7db ⟨1, 1, 100, 570, 600, none⟩ 5 none Role.superAdmin 2
        = Except.error Err.visitConflict := by
  refine ⟨?_, rfl, rfl⟩
  intro visits excludeVisitId prisonerId visitDate timeStart timeEnd hwf hreq
  unfold findConflictingVisit
  rw [List.find?_isSome]
  constructor
  · rintro ⟨v, hv, hpred⟩
    simp only [Bool.and_eq_true, beq_iff_eq, decide_eq_true_eq] at hpred
    obtain ⟨⟨⟨⟨hex, hp⟩, hd⟩, hs⟩, hov⟩ := hpred
    refine ⟨v, hv, ?_, hp, hd, hs, ?_⟩
    · cases excludeVisitId with
      | none => trivial
      | some ex => simpa using hex
    · have hvwf := hwf v hv
      unfold overlapCond at hov
      unfold closedOverlap
      simp only [Bool.or_eq_true, Bool.and_eq_true, decide_eq_true_eq] at hov ⊢
      omega
  · rintro ⟨v, hv, hex, hp, hd, hs, hov⟩
    refine ⟨v, hv, ?_⟩
    simp only [Bool.and_eq_true, beq_iff_eq, decide_eq_true_eq]
    unfold closedOverlap at hov
    simp only [Bool.and_eq_true, decide_eq_true_eq] at hov
    refine ⟨⟨⟨⟨?_, hp⟩, hd⟩, hs⟩, overlapCond_of_closed hov.1 hov.2⟩
    cases excludeVisitId with
    | none => rfl
    | some ex => simpa using hex

/-- C7 witness: the iff evaluated on `c7db` for the overlapping request
09:15–09:45: the probe fires and the existing 09:00–09:30 visit closed-
overlaps it. -/
theorem c7_conflict_witness :
    (findConflictingVisit c7db.visits none 1 100 555 585).isSome = true
    ∧ (∃ v ∈ c7db.visits,
        True
        ∧ v.prisoner_id = 1 ∧ v.visit_date = 100
        ∧ v.status = VisitStatus.scheduled
        ∧ closedOverlap v.visit_time_start v.visit_time_end 555 585 = true) := by
  have h := c7_conflict_is_closed_overlap.1 c7db.visits none 1 100 555 585
    (by decide) (by decide)
  exact ⟨rfl, h.mp (by rfl)⟩

/-- C8 counterexample: `updateVisitStatus` runs no conflict probe, so the
sequence schedule(09:00–09:30) → cancel it → schedule(09:15–09:45) →
set the first visit back to Scheduled commits at every step and ends in a
state with two overlapping Scheduled visits for the same person and date. -/
theorem c8_counterexample :
    Except.map Prod.fst
        (scheduleVisit c8db0 ⟨1, 1, 100, 540, 570, none⟩ 5 none
          Role.superAdmin 1) = Except.ok c8s1
    ∧ updateVisitStatus c8s1 1 "Cancelled" none none Role.superAdmin
        = Except.ok c8s2
    ∧ Except.map Prod.fst
        (scheduleVisit c8s2 ⟨1, 1, 100, 555, 585, none⟩ 5 none
          Role.superAdmin 2) = Except.ok c8s3
    ∧ updateVisitStatus c8s3 1 "Scheduled" none none Role.superAdmin
        = Except.ok c8s4
    ∧ ¬ NoVisitOverlap c8s4 :=
  ⟨rfl, rfl, rfl, rfl, by decide⟩

/-- C8 amended: the no-overlapping-Scheduled-visits invariant is preserved
by every committed `scheduleVisit`, `updateVisit` and `deleteVisit`; it is
NOT preserved by `updateVisitStatus`, which validates only enum membership
and can set a Cancelled or Completed visit back to Scheduled with no
conflict probe (see the counterexample run ending in `c8s4`). -/
theorem c8_no_overlap_preserved :
    ∀ (op : VisitOp) (db db' : DB),
      (db.visits.map Visit.visit_id).Nodup →
      NoVisitOverlap db →
      applyVisitOp op db = Except.ok db' → NoVisitOverlap db' := by
  intro op db db' hnd hinv hok
  cases op with
  | schedule visitData userId upid role newId =>
    simp only [applyVisitOp] at hok
    cases hres : scheduleVisit db visitData userId upid role newId with
    | error e => rw [hres] at hok; cases hok
    | ok pair =>
      rw [hres] at hok
      injection hok with h
      subst h
      exact scheduleVisit_preserves_noOverlap hinv hres
  | update visitId updateData upid role =>
    exact updateVisit_preserves_noOverlap hnd hinv hok
  | delete visitId upid role =>
    exact deleteVisit_preserves_noOverlap hinv hok

/-- C8 witness: the preservation statement evaluated on scheduling the first
visit of the counterexample run. -/
theorem c8_no_overlap_witness :
    (c8db0.visits.map Visit.visit_id).Nodup
    ∧ NoVisitOverlap c8db0
    ∧ applyVisitOp (VisitOp.schedule ⟨1, 1, 100, 540, 570, none⟩ 5 none
        Role.superAdmin 1) c8db0 = Except.ok c8s1
    ∧ NoVisitOverlap c8s1 := by
  refine ⟨by decide, by decide, by rfl, ?_⟩
  exact c8_no_overlap_preserved
    (VisitOp.schedule ⟨1, 1, 100, 540, 570, none⟩ 5 none Role.superAdmin 1)
    c8db0 c8s1 (by decide) (by decide) (by rfl)

/-- C9: a Paid work record rejects every further update, delete and payment
approval with its typed error (and hence stays unchanged); `approvePayment`
succeeds exactly on a record that is not yet Paid, setting
paymentStatus=Paid and paymentDate (the supplied date, or now). -/
theorem c9_paid_immutable :
    (∀ (db : DB) (workRecordId : Nat) (updateData : WorkRecordUpdateData)
        (upid : Option Nat) (role : Role) (workRecord : WorkRecord)
        (prisoner : Prisoner),
        findWorkRecord db workRecordId = some workRecord →
        findPrisoner db workRecord.prisoner_id = some prisoner →
        checkPrisonAccess upid prisoner.prison_id role = true →
        workRecord.payment_status = PayStatus.paid →
        updateWorkRecord db workRecordId updateData upid role
          = Except.error Err.cannotUpdatePaid)
    ∧ (∀ (db : DB) (workRecordId : Nat) (upid : Option Nat) (role : Role)
        (workRecord : WorkRecord) (prisoner : Prisoner),
        findWorkRecord db workRecordId = some workRecord →
        findPrisoner db workRecord.prisoner_id = some prisoner →
        checkPrisonAccess upid prisoner.prison_id role = true →
        workRecord.payment_status = PayStatus.paid →
        deleteWorkRecord db workRecordId upid role
          = Except.error Err.cannotDeletePaid)
    ∧ (∀ (db : DB) (workRecordId : Nat) (paymentDate : Option Int)
        (upid : Option Nat) (role : Role) (now : Int)
        (workRecord : WorkRecord) (prisoner : Prisoner),
        findWorkRecord db workRecordId = some workRecord →
        findPrisoner db workRecord.prisoner_id = some prisoner →
        checkPrisonAccess upid prisoner.prison_id role = true →
        workRecord.payment_status = PayStatus.paid →
        approvePayment db workRecordId paymentDate upid role now
          = Except.error Err.alreadyPaid)
    ∧ (∀ (db : DB) (workRecordId : Nat) (paymentDate : Option Int)
        (upid : Option Nat) (role : Role) (now : Int)
        (workRecord : WorkRecord) (prisoner : Prisoner),
        findWorkRecord db workRecordId = some workRecord →
        findPrisoner db workRecord.prisoner_id = some prisoner →
        checkPrisonAccess upid prisoner.prison_id role = true →
        workRecord.payment_status ≠ PayStatus.paid →
        ∃ db', approvePayment db workRecordId paymentDate upid role now
            = Except.ok db'
          ∧ findWorkRecord db' workRecordId
              = some { workRecord with
                  payment_status := PayStatus.paid
                  payment_date := some (paymentDate.getD now) }) := by
  refine ⟨?_, ?_, ?_, ?_⟩
  · intro db workRecordId updateData upid role workRecord prisoner hfind
      hfindp hacc hpaid
    unfold updateWorkRecord
    rw [hfind]
    simp [hfindp, hacc, hpaid]
  · intro db workRecordId upid role workRecord prisoner hfind hfindp hacc hpaid
    unfold deleteWorkRecord
    rw [hfind]
    simp [hfindp, hacc, hpaid]
  · intro db workRecordId paymentDate upid role now workRecord prisoner hfind
      hfindp hacc hpaid
    unfold approvePayment
    rw [hfind]
    simp [hfindp, hacc, hpaid]
  · intro db workRecordId paymentDate upid role now workRecord prisoner hfind
      hfindp hacc hnp
    have hb : (workRecord.payment_status == PayStatus.paid) = false := by
      simpa using hnp
    unfold approvePayment
    rw [hfind]
    simp only [hfindp, hacc, hb]
    simp only [Bool.true_eq_false, not_true_eq_false, if_false,
      Bool.false_eq_true, if_neg, not_false_iff]
    refine ⟨_, rfl, ?_⟩
    exact find?_updateWhere_self (fun a => rfl) hfind

/-- C9 witness: on `c9db`, the Paid record 1 rejects update, delete and
re-approval; the Pending record 2 is approved and re-lookup shows it Paid
with the supplied payment date. -/
theorem c9_paid_immutable_witness :
    updateWorkRecord c9db 1 ⟨none, none, some 9, none⟩ none Role.superAdmin
      = Except.error Err.cannotUpdatePaid
    ∧ deleteWorkRecord c9db 1 none Role.superAdmin
        = Except.error Err.cannotDeletePaid
    ∧ approvePayment c9db 1 none none Role.superAdmin 6
        = Except.error Err.alreadyPaid
    ∧ approvePayment c9db 2 (some 8) none Role.superAdmin 6 = Except.ok c9db1
    ∧ findWorkRecord c9db1 2
        = some ⟨2, 1, "kitchen duty", 2, 6, 900, PayStatus.paid, some 8, 9⟩ := by
  refine ⟨?_, ?_, ?_, by rfl, ?_⟩
  · exact c9_paid_immutable.1 c9db 1 ⟨none, none, some 9, none⟩ none
      Role.superAdmin ⟨1, 1, "mason work", 2, 8, 1200, PayStatus.paid, some 3, 9⟩
      ⟨1, "P One", "N1", "C1", PrisonerStatus.active, 1, 0, none, none⟩
      (by rfl) (by rfl) (by rfl) (by rfl)
  · exact c9_paid_immutable.2.1 c9db 1 none Role.superAdmin
      ⟨1, 1, "mason work", 2, 8, 1200, PayStatus.paid, some 3, 9⟩
      ⟨1, "P One", "N1", "C1", PrisonerStatus.active, 1, 0, none, none⟩
      (by rfl) (by rfl) (by rfl) (by rfl)
  · exact c9_paid_immutable.2.2.1 c9db 1 none none Role.superAdmin 6
      ⟨1, 1, "mason work", 2, 8, 1200, PayStatus.paid, some 3, 9⟩
      ⟨1, "P One", "N1", "C1", PrisonerStatus.active, 1, 0, none, none⟩
      (by rfl) (by rfl) (by rfl) (by rfl)
  · obtain ⟨db', hok, hfind⟩ := c9_paid_immutable.2.2.2 c9db 2 (some 8) none
      Role.superAdmin 6
      ⟨2, 1, "kitchen duty", 2, 6, 900, PayStatus.pending, none, 9⟩
      ⟨1, "P One", "N1", "C1", PrisonerStatus.active, 1, 0, none, none⟩
      (by rfl) (by rfl) (by rfl) (by decide)
    have h1 : approvePayment c9db 2 (some 8) none Role.superAdmin 6
        = Except.ok c9db1 := by rfl
    rw [hok] at h1
    rw [Except.ok.inj h1] at hfind
    exact hfind

/-- C10: `scheduleVisit` stamps `approved_by` with the scheduling user's id
at creation, and `approveVisit` rejects any visit whose `approved_by` is
already set; hence approving a visit created through `scheduleVisit` always
fails with the already-approved error and changes nothing. -/
theorem c10_schedule_preapproves :
    ∀ (db : DB) (visitData : VisitData) (userId : Nat) (upid : Option Nat)
      (role : Role) (newId : Nat) (db' : DB) (retId : Nat)
      (u2 : Nat) (upid2 : Option Nat) (role2 : Role) (prisoner : Prisoner),
      userId ≠ 0 →
      (∀ v ∈ db.visits, v.visit_id ≠ newId) →
      scheduleVisit db visitData userId upid role newId
        = Except.ok (db', retId) →
      ∃ v, findVisit db' newId = some v
        ∧ v.approved_by = some userId
        ∧ (findPrisoner db' v.prisoner_id = some prisoner →
            checkPrisonAccess upid2 prisoner.prison_id role2 = true →
            approveVisit db' newId u2 upid2 role2
              = Except.error Err.alreadyApproved) := by
  intro db visitData userId upid role newId db' retId u2 upid2 role2 prisoner
    huser hfresh hok
  unfold scheduleVisit at hok
  split at hok
  · cases hok
  next prisoner0 hfindp0 =>
    split at hok
    · cases hok
    · split at hok
      · cases hok
      · split at hok
        · cases hok
        next visitor hfindv =>
          split at hok
          · cases hok
          next hconf =>
            injection hok with h
            injection h with h1 h2
            subst h1
            have hpre : db.visits.find? (fun v => v.visit_id == newId)
                = none := by
              rw [List.find?_eq_none]
              intro v hv
              simpa using hfresh v hv
            have hfind : findVisit
                { db with visits := db.visits ++
                  [{ visit_id := newId
                     prisoner_id := visitData.prisoner_id
                     visitor_id := visitData.visitor_id
                     visit_date := visitData.visit_date
                     visit_time_start := visitData.visit_time_start
                     visit_time_end := visitData.visit_time_end
                     status := VisitStatus.scheduled
                     notes := if strTruthy visitData.notes then visitData.notes
                              else none
                     approved_by := some userId }] } newId
                = some
                  { visit_id := newId
                    prisoner_id := visitData.prisoner_id
                    visitor_id := visitData.visitor_id
                    visit_date := visitData.visit_date
                    visit_time_start := visitData.visit_time_start
                    visit_time_end := visitData.visit_time_end
                    status := VisitStatus.scheduled
                    notes := if strTruthy visitData.notes then visitData.notes
                             else none
                    approved_by := some userId } := by
              unfold findVisit
              dsimp only
              rw [find?_append_of_none hpre]
              simp [List.find?_cons]
            refine ⟨_, hfind, rfl, ?_⟩
            intro hfp hacc
            unfold approveVisit
            rw [hfind]
            have htruthy : optNatTruthy (some userId) = true := by
              simp [optNatTruthy, huser]
            simp [hfp, hacc, htruthy]

/-- C10 witness: user 5 schedules a visit in `c10db`; the created visit has
`approved_by = 5` and `approveVisit` on it (by user 7) fails with the
already-approved error. -/
theorem c10_schedule_preapproves_witness :
    scheduleVisit c10db ⟨1, 1, 100, 540, 570, none⟩ 5 none Role.superAdmin 1
      = Except.ok (c10db1, 1)
    ∧ (findVisit c10db1 1).map Visit.approved_by = some (some 5)
    ∧ approveVisit c10db1 1 7 none Role.superAdmin
        = Except.error Err.alreadyApproved := by
  obtain ⟨v, hfind, happ, himp⟩ :=
    c10_schedule_preapproves c10db ⟨1, 1, 100, 540, 570, none⟩ 5 none
      Role.superAdmin 1 c10db1 1 7 none Role.superAdmin
      ⟨1, "P One", "N1", "C1", PrisonerStatus.active, 1, 0, none, none⟩
      (by decide) (fun v hv => absurd hv (List.not_mem_nil v)) (by rfl)
  have hv2 : v = ⟨1, 1, 1, 100, 540, 570, VisitStatus.scheduled, some 5,
      none⟩ := by
    have heval : findVisit c10db1 1
        = some ⟨1, 1, 1, 100, 540, 570, VisitStatus.scheduled, some 5, none⟩ :=
      by rfl
    rw [heval] at hfind
    exact (Option.some.inj hfind).symm
  rw [hv2] at himp
  exact ⟨by rfl, by rfl, himp (by rfl) (by rfl)⟩

end PrisonMS
